import Mathlib

/-!
A shallow embedding of the Picoflexx camera backend (`backend.py`,
class `Picoflexx_Source`) and proofs about its connection, timestamp
synchronisation, failure tracking and recording-segment logic.

Conventions of the embedding:
* Python floats (timestamps, in seconds) are modelled as rationals,
  so the additive offset arithmetic is exact.
* Python ints (exposure values) are modelled as integers.
* The camera SDK (`RoyaleCameraDevice`) is an external collaborator;
  its replies during one call are modelled by a `CameraEnv` record.
* Side effects (camera SDK calls, notification-bus messages, file
  writes, log lines) are collected in an explicit `Effect` list, in
  the order the Python code performs them.
* Leading underscores of Python attribute names are dropped
  (for instance `_missed_frame_count` becomes `missed_frame_count`).
* Successive calls of `time()` within one invocation are modelled by
  a single per-call reading `unixNow`; `g_pool.get_timestamp()` is
  the reading `pupilNow`.
-/

namespace Picoflexx

/-- A pair of IR and depth frames, as produced by
`camera.get_frame` (`FramePair` in the Python source).  Only the
timestamps matter for the properties below. -/
structure FramePair where
  irTimestamp : ℚ
  depthTimestamp : ℚ
deriving DecidableEq

/-- The replies the `RoyaleCameraDevice` SDK object gives during one
call into the backend: results of `initialize()`, `is_connected()`,
`is_capturing()`, `get_current_usecase()`, `get_exposure_mode()`,
`set_exposure_mode(m)` (which returns the mode actually applied) and
`get_exposure_limits()`. -/
structure CameraEnv where
  initialize_ok : Bool
  is_connected : Bool
  is_capturing : Bool
  current_usecase : String
  exposure_mode : Bool
  set_exposure_mode_result : Bool → Bool
  exposure_limits : ℤ × ℤ

/-- Observable side effects of the backend, in program order:
camera SDK calls, `notify_all` bus messages, the metadata file write
and the log lines the claims refer to.  `metadataAppend` records that
the file at `path` is opened with mode `"a"` (append) and the given
key/value pair is written to it. -/
inductive Effect where
  | camInit
  | camSetUsecase (usecase : String)
  | camSetExposureMode (mode : Bool)
  | camSetExposure (exposure : ℤ)
  | camStartRecording (path : String)
  | camStopRecording
  | notifyAll (subject : String)
  | notifySetExposureDelayed (exposure : ℤ)
  | metadataAppend (path : String) (key : String) (value : Option ℚ)
  | logReconnectCall
  | warnCameraNone
  | logErrorNotOnline
deriving DecidableEq

/-- The mutable attributes of a `Picoflexx_Source` object that the
claims are about.  `cameraPresent` models `self.camera is not None`;
`menuPresent` models the truthiness of `self.menu` tested at the top
of `on_notify`.  UI widget objects themselves are outside the model. -/
structure SourceState where
  cameraPresent : Bool
  selected_usecase : Option String
  frame_count : ℤ
  record_pointcloud : Bool
  royale_timestamp_offset : Option ℚ
  last_frame_time : ℚ
  missed_frame_count : ℕ
  reconnection_attempts : ℕ
  recording_reconnection_count : ℕ
  current_exposure : ℤ
  current_exposure_mode : Bool
  recording_directory : Option String
  menuPresent : Bool
deriving DecidableEq

/-- `self.online`: `self.camera and self.camera.is_connected() and
self.camera.is_capturing()`. -/
def online (cam : CameraEnv) (s : SourceState) : Bool :=
  s.cameraPresent && cam.is_connected && cam.is_capturing

/-- `load_camera_state`: obtain usecase, exposure mode and exposure
limits from the camera; do nothing (except an error log) when not
online.  The exposure value is clamped down to the new maximum when
it exceeds it.  The trailing UI-widget updates of the Python code
mutate only widget objects and are outside the model. -/
def load_camera_state (cam : CameraEnv) (s : SourceState) :
    SourceState × List Effect :=
  if online cam s = false then
    (s, [Effect.logErrorNotOnline])
  else
    let s1 := { s with selected_usecase := some cam.current_usecase,
                       current_exposure_mode := cam.exposure_mode }
    let high := cam.exposure_limits.2
    let s2 := if s1.current_exposure > high then
        { s1 with current_exposure := high }
      else s1
    (s2, [])

/-- `set_usecase`: forward the usecase to the camera, then refresh
the cached camera state. -/
def set_usecase (cam : CameraEnv) (u : String) (s : SourceState) :
    SourceState × List Effect :=
  let p := load_camera_state cam s
  (p.1, Effect.camSetUsecase u :: p.2)

/-- `set_exposure_mode`: the cached mode becomes whatever the camera
reports as the applied mode.  The UI read-only flag update is outside
the model. -/
def set_exposure_mode (cam : CameraEnv) (m : Bool) (s : SourceState) :
    SourceState × List Effect :=
  ({ s with current_exposure_mode := cam.set_exposure_mode_result m },
   [Effect.camSetExposureMode m])

/-- The segment file name chosen by `start_pointcloud_recording`:
`pointcloud.rrf` for reconnection count 0, else
`pointcloud_<count>.rrf` (the Python `"pointcloud_{}.rrf".format`). -/
def pointcloudFilename (count : ℕ) : String :=
  if count = 0 then "pointcloud.rrf"
  else "pointcloud_" ++ Nat.repr count ++ ".rrf"

/-- `start_pointcloud_recording rec_loc`: start an rrf recording if
the user has requested it.  `os.path.join` is modelled as
concatenation with a `/` separator. -/
def start_pointcloud_recording (rec_loc : String) (s : SourceState) :
    SourceState × List Effect :=
  if s.record_pointcloud = false then (s, [])
  else
    (s, [Effect.camStartRecording
          ((rec_loc ++ "/") ++ pointcloudFilename s.recording_reconnection_count)])

/-- `stop_pointcloud_recording`: stop recording an rrf if the user
had requested we record one.  Note the guard tests only the
`record_pointcloud` option, not whether a recording is active. -/
def stop_pointcloud_recording (s : SourceState) : SourceState × List Effect :=
  if s.record_pointcloud = false then (s, [])
  else (s, [Effect.camStopRecording])

/-- `on_disconnection`. -/
def on_disconnection (s : SourceState) : SourceState × List Effect :=
  if s.recording_directory.isSome && s.record_pointcloud then
    stop_pointcloud_recording s
  else (s, [])

/-- `on_reconnection`. -/
def on_reconnection (s : SourceState) : SourceState × List Effect :=
  match s.recording_directory with
  | some dir =>
    if s.record_pointcloud then
      let s1 := { s with recording_reconnection_count :=
                           s.recording_reconnection_count + 1 }
      start_pointcloud_recording dir s1
    else (s, [])
  | none => (s, [])

/-- `save_recording_metadata rec_path`: open
`rec_path/info_picoflexx.csv` with mode `"a"` and append the key
`"Royale Timestamp Offset"` mapped to the current offset. -/
def save_recording_metadata (rec_path : String) (s : SourceState) :
    List Effect :=
  [Effect.metadataAppend ((rec_path ++ "/") ++ "info_picoflexx.csv")
    "Royale Timestamp Offset" s.royale_timestamp_offset]

/-- `init_device`: returns `false` when `camera.initialize()` or the
connection check fails, leaving all attributes untouched; otherwise
re-applies the cached usecase, exposure mode and exposure value,
refreshes the camera state, runs the reconnection hook and emits the
`picoflexx.reconnected` notification.  The boolean in the result is
the Python return value. -/
def init_device (cam : CameraEnv) (s : SourceState) :
    SourceState × List Effect × Bool :=
  if cam.initialize_ok = false then (s, [Effect.camInit], false)
  else if cam.is_connected = false then (s, [Effect.camInit], false)
  else
    let wanted := s.current_exposure_mode
    let p1 := match s.selected_usecase with
      | some u => set_usecase cam u s
      | none => (s, ([] : List Effect))
    let p2 := set_exposure_mode cam wanted p1.1
    let p3 : SourceState × List Effect :=
      if p2.1.current_exposure_mode = false ∧ p2.1.current_exposure ≠ 0 then
        (p2.1, [Effect.camSetExposure p2.1.current_exposure,
                Effect.notifySetExposureDelayed p2.1.current_exposure])
      else (p2.1, [])
    let p4 := load_camera_state cam p3.1
    let p5 := on_reconnection p4.1
    (p5.1,
     Effect.camInit ::
       (p1.2 ++ p2.2 ++ p3.2 ++ p4.2 ++ p5.2 ++
        [Effect.notifyAll "picoflexx.reconnected"]),
     true)

/-- `attempt_reconnect`: logs, is a no-op when the camera handle was
never created, emits the `picoflexx.disconnected` notification on the
first failed cycle (pre-call attempt counter zero), increments the
attempt counter, re-initialises the device and resets the counter on
success. -/
def attempt_reconnect (cam : CameraEnv) (s : SourceState) :
    SourceState × List Effect :=
  if s.cameraPresent = false then
    (s, [Effect.logReconnectCall, Effect.warnCameraNone])
  else
    let p1 : SourceState × List Effect :=
      if s.reconnection_attempts = 0 then
        let q := on_disconnection s
        (q.1, q.2 ++ [Effect.notifyAll "picoflexx.disconnected"])
      else (s, [])
    let s2 := { p1.1 with reconnection_attempts :=
                            p1.1.reconnection_attempts + 1 }
    let p3 := init_device cam s2
    let s4 := if p3.2.2 then { p3.1 with reconnection_attempts := 0 } else p3.1
    (s4, Effect.logReconnectCall :: (p1.2 ++ p3.2.1))

/-- `get_frames`: one poll of the camera.  `poll` is the reply of
`camera.get_frame(block=True, timeout=0.02)`.  On a timeout the miss
counter is incremented and, past either threshold, a reconnection is
attempted and both tracker fields are reset.  On success the tracker
is reset, the one-shot timestamp offset is computed when still unset
(as `g_pool.get_timestamp() - time()`), and both frame timestamps are
returned shifted by the stored offset. -/
def get_frames (cam : CameraEnv) (unixNow pupilNow : ℚ)
    (poll : Option FramePair) (s : SourceState) :
    SourceState × List Effect × Option FramePair :=
  match poll with
  | none =>
    let s1 := { s with missed_frame_count := s.missed_frame_count + 1 }
    if s1.missed_frame_count > 45 ∨ unixNow - s1.last_frame_time > 5 then
      let p := attempt_reconnect cam s1
      ({ p.1 with missed_frame_count := 0, last_frame_time := unixNow },
       p.2, none)
    else
      (s1, [], none)
  | some f =>
    let s1 := { s with missed_frame_count := 0, last_frame_time := unixNow }
    let s2 :=
      if s1.royale_timestamp_offset = none then
        { s1 with royale_timestamp_offset := some (pupilNow - unixNow) }
      else s1
    let off := s2.royale_timestamp_offset.getD 0
    ({ s2 with frame_count := s2.frame_count + 1 }, [],
     some { irTimestamp := f.irTimestamp + off,
            depthTimestamp := f.depthTimestamp + off })

/-- The notifications `on_notify` dispatches on. -/
inductive Notification where
  | setExposure (exposure : ℤ)
  | recordingStarted (rec_path : String)
  | recordingStopped
  | other (subject : String)

/-- `on_notify`: drops every notification while the menu was never
created; applies a delayed exposure change; on `recording.started`
remembers the recording directory, resets the per-recording
reconnection count, writes the metadata file and starts the first
segment; on `recording.stopped` stops the segment and forgets the
directory.  The UI read-only toggles mutate only widget objects. -/
def on_notify (n : Notification) (s : SourceState) :
    SourceState × List Effect :=
  if s.menuPresent = false then (s, [])
  else
    match n with
    | .setExposure e => (s, [Effect.camSetExposure e])
    | .recordingStarted p =>
      let s1 := { s with frame_count := -1, recording_directory := some p,
                         recording_reconnection_count := 0 }
      let e1 := save_recording_metadata p s1
      let p2 := start_pointcloud_recording p s1
      (p2.1, e1 ++ p2.2)
    | .recordingStopped =>
      let p1 := stop_pointcloud_recording s
      ({ p1.1 with recording_directory := none }, p1.2)
    | .other _ => (s, [])

/-- The keyword arguments of `Picoflexx_Source.__init__` that take
part in the `get_init_dict` round trip. -/
structure InitArgs where
  auto_exposure : Bool
  record_pointcloud : Bool
  current_exposure : ℤ
  selected_usecase : Option String
deriving DecidableEq

/-- `__init__`: set the attributes from the keyword arguments (the
defaults are `auto_exposure=False`, `record_pointcloud=False`,
`current_exposure=2000`, `selected_usecase=None`) and call
`init_device`.  `unixNow` is the `time()` reading stored into
`_last_frame_time`. -/
def mkSource (cam : CameraEnv) (unixNow : ℚ) (a : InitArgs) :
    SourceState × List Effect × Bool :=
  let s0 : SourceState := {
    cameraPresent := true
    selected_usecase := a.selected_usecase
    frame_count := 0
    record_pointcloud := a.record_pointcloud
    royale_timestamp_offset := none
    last_frame_time := unixNow
    missed_frame_count := 0
    reconnection_attempts := 0
    recording_reconnection_count := 0
    current_exposure := a.current_exposure
    current_exposure_mode := a.auto_exposure
    recording_directory := none
    menuPresent := false }
  init_device cam s0

/-- `get_init_dict`: the settings dictionary handed to a restarted
plugin instance. -/
def get_init_dict (s : SourceState) : InitArgs :=
  { auto_exposure := s.current_exposure_mode
    record_pointcloud := s.record_pointcloud
    current_exposure := s.current_exposure
    selected_usecase := s.selected_usecase }

/-- The inputs of one `get_frames` invocation: the camera replies,
the two clock readings and the poll outcome. -/
structure TickInput where
  cam : CameraEnv
  unixNow : ℚ
  pupilNow : ℚ
  poll : Option FramePair

/-- Run `get_frames` over a sequence of poll outcomes, collecting the
per-tick effects and returned frame pairs. -/
def runTicks (s : SourceState) :
    List TickInput → SourceState × List (List Effect × Option FramePair)
  | [] => (s, [])
  | t :: ts =>
    let p := get_frames t.cam t.unixNow t.pupilNow t.poll s
    let r := runTicks p.1 ts
    (r.1, (p.2.1, p.2.2) :: r.2)

/-- Whether a tick attempted a reconnection: `attempt_reconnect`
unconditionally logs `attempt_reconnect()` on entry, so the log line
is the observable marker of an attempt. -/
def triggerFlags (s : SourceState) (ts : List TickInput) : List Bool :=
  (runTicks s ts).2.map (fun o => decide (Effect.logReconnectCall ∈ o.1))

/-- A camera whose `initialize()` fails: the device stays offline. -/
def camOffline : CameraEnv :=
  { initialize_ok := false
    is_connected := false
    is_capturing := false
    current_usecase := ""
    exposure_mode := false
    set_exposure_mode_result := fun b => b
    exposure_limits := (0, 0) }

/-- A healthy camera: `initialize()` succeeds and the device is
connected and capturing. -/
def camOnline : CameraEnv :=
  { initialize_ok := true
    is_connected := true
    is_capturing := true
    current_usecase := "MODE_9_5FPS_2000"
    exposure_mode := false
    set_exposure_mode_result := fun b => b
    exposure_limits := (8, 2000) }

/-- A freshly constructed source (the `__init__` defaults) whose
initial `init_device` found the device offline, with the construction
time normalised to 0. -/
def baseState : SourceState :=
  { cameraPresent := true
    selected_usecase := none
    frame_count := 0
    record_pointcloud := false
    royale_timestamp_offset := none
    last_frame_time := 0
    missed_frame_count := 0
    reconnection_attempts := 0
    recording_reconnection_count := 0
    current_exposure := 2000
    current_exposure_mode := false
    recording_directory := none
    menuPresent := false }

/-!
Injectivity of `Nat.repr`, used for the distinctness of the
`pointcloud_<N>.rrf` segment names.  `Nat.repr` renders via
`Nat.toDigitsCore`; we relate it to `Nat.digits` from Mathlib.
-/

theorem digitChar_inj_lt (a b : ℕ) (ha : a < 10) (hb : b < 10)
    (h : Nat.digitChar a = Nat.digitChar b) : a = b := by
  have key : ∀ x y : Fin 10, Nat.digitChar x.val = Nat.digitChar y.val → x = y := by
    decide
  have := key ⟨a, ha⟩ ⟨b, hb⟩ h
  exact congrArg Fin.val this

theorem toDigitsCore_eq_digits :
    ∀ (fuel n : ℕ), n ≠ 0 → n < 10 ^ fuel → ∀ ds : List Char,
      Nat.toDigitsCore 10 fuel n ds
        = ((Nat.digits 10 n).map Nat.digitChar).reverse ++ ds := by
  intro fuel
  induction fuel with
  | zero =>
    intro n hn h ds
    simp at h
    exact absurd h hn
  | succ f ih =>
    intro n hn h ds
    show (if n / 10 = 0 then Nat.digitChar (n % 10) :: ds
          else Nat.toDigitsCore 10 f (n / 10) (Nat.digitChar (n % 10) :: ds))
        = ((Nat.digits 10 n).map Nat.digitChar).reverse ++ ds
    rcases Nat.eq_zero_or_pos (n / 10) with h0 | h0
    · have hlt : n < 10 := by
        have := Nat.div_eq_zero_iff (by norm_num : 0 < 10) |>.mp h0
        exact this
      rw [if_pos h0, Nat.digits_of_lt 10 n hn hlt, Nat.mod_eq_of_lt hlt]
      simp
    · have hne : n / 10 ≠ 0 := Nat.pos_iff_ne_zero.mp h0
      have hdiv : n / 10 < 10 ^ f := by
        have h10 : 0 < 10 := by norm_num
        rw [Nat.div_lt_iff_lt_mul h10]
        calc n < 10 ^ (f + 1) := h
        _ = 10 ^ f * 10 := by rw [pow_succ]
      rw [if_neg hne, ih (n / 10) hne hdiv,
        Nat.digits_def' (by norm_num : 1 < 10) (Nat.pos_of_ne_zero hn)]
      simp

theorem natRepr_eq_digits (n : ℕ) (hn : n ≠ 0) :
    Nat.repr n = (((Nat.digits 10 n).map Nat.digitChar).reverse).asString := by
  have hfuel : n < 10 ^ (n + 1) := by
    calc n < 10 ^ n := Nat.lt_pow_self (by norm_num) n
    _ ≤ 10 ^ (n + 1) := Nat.pow_le_pow_right (by norm_num) (Nat.le_succ n)
  show (Nat.toDigitsCore 10 (n + 1) n []).asString = _
  rw [toDigitsCore_eq_digits (n + 1) n hn hfuel []]
  simp

theorem map_digitChar_inj :
    ∀ l1 l2 : List ℕ, (∀ d ∈ l1, d < 10) → (∀ d ∈ l2, d < 10) →
      l1.map Nat.digitChar = l2.map Nat.digitChar → l1 = l2 := by
  intro l1
  induction l1 with
  | nil =>
    intro l2 _ _ h
    cases l2 with
    | nil => rfl
    | cons b tl => simp at h
  | cons a tl ih =>
    intro l2 h1 h2 h
    cases l2 with
    | nil => simp at h
    | cons b tl2 =>
      simp only [List.map_cons, List.cons.injEq] at h
      have ha : a < 10 := h1 a (List.mem_cons_self a tl)
      have hb : b < 10 := h2 b (List.mem_cons_self b tl2)
      have hab : a = b := digitChar_inj_lt a b ha hb h.1
      have htl : tl = tl2 :=
        ih tl2 (fun d hd => h1 d (List.mem_cons_of_mem a hd))
          (fun d hd => h2 d (List.mem_cons_of_mem b hd)) h.2
      rw [hab, htl]

theorem natRepr_injective : Function.Injective Nat.repr := by
  have hdata : ∀ l : List Char, (List.asString l).data = l := fun _ => rfl
  have hzero : ∀ n : ℕ, n ≠ 0 → Nat.repr n ≠ "0" := by
    intro n hn hcontra
    have h1 := congrArg String.data ((natRepr_eq_digits n hn).symm.trans hcontra)
    rw [hdata] at h1
    have h2 : (Nat.digits 10 n).map Nat.digitChar = ['0'] := by
      have := congrArg List.reverse h1
      simpa using this
    have h3 : Nat.digits 10 n = [0] := by
      cases hd : Nat.digits 10 n with
      | nil => rw [hd] at h2; simp at h2
      | cons a tl =>
        rw [hd] at h2
        cases tl with
        | nil =>
          simp only [List.map_cons, List.map_nil, List.cons.injEq, and_true] at h2
          have ha : a < 10 := Nat.digits_lt_base (by norm_num) (hd ▸ List.mem_cons_self a [])
          have : a = 0 := digitChar_inj_lt a 0 ha (by norm_num) h2
          rw [this]
        | cons b tl2 => simp at h2
    have h4 := Nat.ofDigits_digits 10 n
    rw [h3] at h4
    simp [Nat.ofDigits] at h4
    exact hn h4.symm
  intro m n h
  by_cases hm : m = 0
  · by_cases hn : n = 0
    · rw [hm, hn]
    · subst hm
      exact absurd h.symm (hzero n hn)
  · by_cases hn : n = 0
    · subst hn
      exact absurd h (hzero m hm)
    · rw [natRepr_eq_digits m hm, natRepr_eq_digits n hn] at h
      have h1 := congrArg String.data h
      rw [hdata, hdata] at h1
      have h2 := congrArg List.reverse h1
      simp only [List.reverse_reverse] at h2
      have h3 : Nat.digits 10 m = Nat.digits 10 n :=
        map_digitChar_inj (Nat.digits 10 m) (Nat.digits 10 n)
          (fun d hd => Nat.digits_lt_base (by norm_num) hd)
          (fun d hd => Nat.digits_lt_base (by norm_num) hd) h2
      exact Nat.digits.injective 10 h3

theorem strAppend_cancel_left (a b c : String) (h : a ++ b = a ++ c) : b = c := by
  apply String.ext
  have h2 := congrArg String.data h
  rw [String.data_append, String.data_append] at h2
  exact List.append_cancel_left h2

theorem strAppend_cancel_right (a b c : String) (h : a ++ c = b ++ c) : a = b := by
  apply String.ext
  have h2 := congrArg String.data h
  rw [String.data_append, String.data_append] at h2
  exact List.append_cancel_right h2

/-- The base segment name differs from every numbered segment name:
the two strings differ at character index 10. -/
theorem pointcloud_base_ne_numbered (r : String) :
    "pointcloud.rrf" ≠ ("pointcloud_" ++ r) ++ ".rrf" := by
  intro h
  have h2 := congrArg (fun s => s.data.take 11) h
  simp only [String.data_append] at h2
  rw [List.append_assoc] at h2
  have h3 : ("pointcloud_".data ++ (r.data ++ ".rrf".data)).take 11
      = "pointcloud_".data := by
    simp
  rw [h3] at h2
  exact absurd h2 (by decide)

/-- Distinct reconnection counts give distinct numbered segment
names. -/
theorem pointcloud_numbered_inj (i j : ℕ)
    (h : ("pointcloud_" ++ Nat.repr i) ++ ".rrf"
       = ("pointcloud_" ++ Nat.repr j) ++ ".rrf") : i = j := by
  have h1 := strAppend_cancel_right _ _ _ h
  have h2 := strAppend_cancel_left _ _ _ h1
  exact natRepr_injective h2

/-- The recording segment paths opened by a list of effects, in
order. -/
def segmentsOpened (effs : List Effect) : List String :=
  effs.filterMap (fun e => match e with
    | Effect.camStartRecording p => some p
    | _ => none)

theorem segmentsOpened_append (a b : List Effect) :
    segmentsOpened (a ++ b) = segmentsOpened a ++ segmentsOpened b := by
  unfold segmentsOpened
  exact List.filterMap_append a b _

theorem load_camera_state_fields (cam : CameraEnv) (s : SourceState) :
    (load_camera_state cam s).1.record_pointcloud = s.record_pointcloud ∧
    (load_camera_state cam s).1.recording_directory = s.recording_directory ∧
    (load_camera_state cam s).1.recording_reconnection_count
      = s.recording_reconnection_count ∧
    (load_camera_state cam s).1.cameraPresent = s.cameraPresent ∧
    (load_camera_state cam s).1.menuPresent = s.menuPresent ∧
    (load_camera_state cam s).1.royale_timestamp_offset
      = s.royale_timestamp_offset ∧
    (load_camera_state cam s).1.reconnection_attempts
      = s.reconnection_attempts ∧
    (load_camera_state cam s).1.missed_frame_count = s.missed_frame_count ∧
    (load_camera_state cam s).1.last_frame_time = s.last_frame_time ∧
    segmentsOpened (load_camera_state cam s).2 = [] := by
  unfold load_camera_state
  split
  · simp [segmentsOpened]
  · dsimp only
    split <;> simp [segmentsOpened]

theorem set_usecase_fields (cam : CameraEnv) (u : String) (s : SourceState) :
    (set_usecase cam u s).1.record_pointcloud = s.record_pointcloud ∧
    (set_usecase cam u s).1.recording_directory = s.recording_directory ∧
    (set_usecase cam u s).1.recording_reconnection_count
      = s.recording_reconnection_count ∧
    (set_usecase cam u s).1.cameraPresent = s.cameraPresent ∧
    (set_usecase cam u s).1.menuPresent = s.menuPresent ∧
    (set_usecase cam u s).1.royale_timestamp_offset
      = s.royale_timestamp_offset ∧
    (set_usecase cam u s).1.reconnection_attempts = s.reconnection_attempts ∧
    (set_usecase cam u s).1.missed_frame_count = s.missed_frame_count ∧
    (set_usecase cam u s).1.last_frame_time = s.last_frame_time ∧
    segmentsOpened (set_usecase cam u s).2 = [] := by
  have h := load_camera_state_fields cam s
  unfold set_usecase
  refine ⟨h.1, h.2.1, h.2.2.1, h.2.2.2.1, h.2.2.2.2.1, h.2.2.2.2.2.1,
    h.2.2.2.2.2.2.1, h.2.2.2.2.2.2.2.1, h.2.2.2.2.2.2.2.2.1, ?_⟩
  show segmentsOpened (Effect.camSetUsecase u :: (load_camera_state cam s).2) = []
  have h2 := h.2.2.2.2.2.2.2.2.2
  unfold segmentsOpened at h2 ⊢
  simpa using h2

theorem set_exposure_mode_fields (cam : CameraEnv) (m : Bool) (s : SourceState) :
    (set_exposure_mode cam m s).1.record_pointcloud = s.record_pointcloud ∧
    (set_exposure_mode cam m s).1.recording_directory
      = s.recording_directory ∧
    (set_exposure_mode cam m s).1.recording_reconnection_count
      = s.recording_reconnection_count ∧
    (set_exposure_mode cam m s).1.cameraPresent = s.cameraPresent ∧
    (set_exposure_mode cam m s).1.menuPresent = s.menuPresent ∧
    (set_exposure_mode cam m s).1.royale_timestamp_offset
      = s.royale_timestamp_offset ∧
    (set_exposure_mode cam m s).1.reconnection_attempts
      = s.reconnection_attempts ∧
    (set_exposure_mode cam m s).1.missed_frame_count
      = s.missed_frame_count ∧
    (set_exposure_mode cam m s).1.last_frame_time = s.last_frame_time ∧
    (set_exposure_mode cam m s).1.current_exposure = s.current_exposure ∧
    segmentsOpened (set_exposure_mode cam m s).2 = [] := by
  unfold set_exposure_mode
  simp [segmentsOpened]

theorem stop_pointcloud_recording_state (s : SourceState) :
    (stop_pointcloud_recording s).1 = s := by
  unfold stop_pointcloud_recording
  split <;> rfl

theorem stop_pointcloud_recording_segments (s : SourceState) :
    segmentsOpened (stop_pointcloud_recording s).2 = [] := by
  unfold stop_pointcloud_recording
  split <;> simp [segmentsOpened]

theorem on_disconnection_state (s : SourceState) :
    (on_disconnection s).1 = s := by
  unfold on_disconnection
  split
  · exact stop_pointcloud_recording_state s
  · rfl

theorem on_disconnection_segments (s : SourceState) :
    segmentsOpened (on_disconnection s).2 = [] := by
  unfold on_disconnection
  split
  · exact stop_pointcloud_recording_segments s
  · simp [segmentsOpened]

theorem init_device_fail (cam : CameraEnv) (s : SourceState)
    (h : cam.initialize_ok = false ∨ cam.is_connected = false) :
    init_device cam s = (s, [Effect.camInit], false) := by
  unfold init_device
  rcases h with h | h
  · rw [if_pos h]
  · by_cases h2 : cam.initialize_ok = false
    · rw [if_pos h2]
    · rw [if_neg h2, if_pos h]

theorem start_pointcloud_recording_state (rec_loc : String) (s : SourceState) :
    (start_pointcloud_recording rec_loc s).1 = s := by
  unfold start_pointcloud_recording
  split <;> rfl

theorem start_pointcloud_recording_segments (rec_loc : String) (s : SourceState)
    (hrp : s.record_pointcloud = true) :
    segmentsOpened (start_pointcloud_recording rec_loc s).2
      = [(rec_loc ++ "/") ++ pointcloudFilename s.recording_reconnection_count] := by
  unfold start_pointcloud_recording
  rw [if_neg (by simp [hrp])]
  simp [segmentsOpened]

theorem on_reconnection_state (s : SourceState) :
    (on_reconnection s).1 = s ∨
    (on_reconnection s).1
      = { s with recording_reconnection_count :=
                   s.recording_reconnection_count + 1 } := by
  unfold on_reconnection
  rcases hdir : s.recording_directory with _ | dir
  · exact Or.inl rfl
  · dsimp only
    split
    · exact Or.inr (start_pointcloud_recording_state dir _)
    · exact Or.inl rfl

theorem on_reconnection_rec (s : SourceState) (dir : String)
    (hdir : s.recording_directory = some dir)
    (hrp : s.record_pointcloud = true) :
    (on_reconnection s).1
      = { s with recording_reconnection_count :=
                   s.recording_reconnection_count + 1 } ∧
    segmentsOpened (on_reconnection s).2
      = [(dir ++ "/")
          ++ pointcloudFilename (s.recording_reconnection_count + 1)] := by
  unfold on_reconnection
  rw [hdir]
  dsimp only
  rw [if_pos hrp]
  constructor
  · exact start_pointcloud_recording_state dir _
  · rw [start_pointcloud_recording_segments dir _ (by simp [hrp])]

theorem on_reconnection_norec (s : SourceState)
    (h : s.recording_directory = none ∨ s.record_pointcloud = false) :
    (on_reconnection s).1 = s ∧ segmentsOpened (on_reconnection s).2 = [] := by
  unfold on_reconnection
  rcases hdir : s.recording_directory with _ | dir
  · exact ⟨rfl, rfl⟩
  · dsimp only
    rcases h with h | h
    · rw [hdir] at h
      exact absurd h (by simp)
    · rw [if_neg (by simp [h])]
      exact ⟨rfl, rfl⟩

/-- The fields of the source state that a successful `init_device`
run can never change, together with the produced segment openings:
a successful run increments the per-recording reconnection count and
opens exactly one new segment when a recording with the pointcloud
option is in progress, and opens none otherwise. -/
theorem init_device_ok (cam : CameraEnv) (s : SourceState)
    (h1 : cam.initialize_ok = true) (h2 : cam.is_connected = true) :
    (init_device cam s).2.2 = true ∧
    (init_device cam s).1.cameraPresent = s.cameraPresent ∧
    (init_device cam s).1.menuPresent = s.menuPresent ∧
    (init_device cam s).1.record_pointcloud = s.record_pointcloud ∧
    (init_device cam s).1.recording_directory = s.recording_directory ∧
    (init_device cam s).1.reconnection_attempts = s.reconnection_attempts ∧
    (init_device cam s).1.missed_frame_count = s.missed_frame_count ∧
    (init_device cam s).1.last_frame_time = s.last_frame_time ∧
    (init_device cam s).1.royale_timestamp_offset
      = s.royale_timestamp_offset ∧
    (∀ dir, s.recording_directory = some dir → s.record_pointcloud = true →
      (init_device cam s).1.recording_reconnection_count
          = s.recording_reconnection_count + 1 ∧
      segmentsOpened (init_device cam s).2.1
          = [(dir ++ "/")
              ++ pointcloudFilename (s.recording_reconnection_count + 1)]) ∧
    ((s.recording_directory = none ∨ s.record_pointcloud = false) →
      (init_device cam s).1.recording_reconnection_count
          = s.recording_reconnection_count ∧
      segmentsOpened (init_device cam s).2.1 = []) := by
  unfold init_device
  rw [if_neg (by simp [h1]), if_neg (by simp [h2])]
  dsimp only
  -- name the states along the chain
  set q1 := (match s.selected_usecase with
    | some u => set_usecase cam u s
    | none => (s, ([] : List Effect))) with hq1
  have hq1f : q1.1.record_pointcloud = s.record_pointcloud ∧
      q1.1.recording_directory = s.recording_directory ∧
      q1.1.recording_reconnection_count = s.recording_reconnection_count ∧
      q1.1.cameraPresent = s.cameraPresent ∧
      q1.1.menuPresent = s.menuPresent ∧
      q1.1.royale_timestamp_offset = s.royale_timestamp_offset ∧
      q1.1.reconnection_attempts = s.reconnection_attempts ∧
      q1.1.missed_frame_count = s.missed_frame_count ∧
      q1.1.last_frame_time = s.last_frame_time ∧
      segmentsOpened q1.2 = [] := by
    rcases hu : s.selected_usecase with _ | u
    · rw [hq1, hu]
      exact ⟨rfl, rfl, rfl, rfl, rfl, rfl, rfl, rfl, rfl, rfl⟩
    · rw [hq1, hu]
      exact set_usecase_fields cam u s
  obtain ⟨f1, f2, f3, f4, f5, f6, f7, f8, f9, f10⟩ := hq1f
  set q2 := set_exposure_mode cam s.current_exposure_mode q1.1 with hq2
  obtain ⟨g1, g2, g3, g4, g5, g6, g7, g8, g9, g10, g11⟩ :=
    set_exposure_mode_fields cam s.current_exposure_mode q1.1
  rw [← hq2] at g1 g2 g3 g4 g5 g6 g7 g8 g9 g10 g11
  set q3 : SourceState × List Effect :=
    (if q2.1.current_exposure_mode = false ∧ q2.1.current_exposure ≠ 0 then
      (q2.1, [Effect.camSetExposure q2.1.current_exposure,
              Effect.notifySetExposureDelayed q2.1.current_exposure])
    else (q2.1, [])) with hq3
  have hq3s : q3.1 = q2.1 ∧ segmentsOpened q3.2 = [] := by
    rw [hq3]
    split
    · exact ⟨rfl, rfl⟩
    · exact ⟨rfl, rfl⟩
  obtain ⟨e1, e2⟩ := hq3s
  obtain ⟨k1, k2, k3, k4, k5, k6, k7, k8, k9, k10⟩ :=
    load_camera_state_fields cam q3.1
  set q4 := load_camera_state cam q3.1 with hq4
  set q5 := on_reconnection q4.1 with hq5
  have hdirq : q4.1.recording_directory = s.recording_directory := by
    rw [k2, e1, g2, f2]
  have hrpq : q4.1.record_pointcloud = s.record_pointcloud := by
    rw [k1, e1, g1, f1]
  have hcntq : q4.1.recording_reconnection_count
      = s.recording_reconnection_count := by
    rw [k3, e1, g3, f3]
  have hpres : ∀ t : SourceState, q5.1 = t →
      t.cameraPresent = q4.1.cameraPresent ∧
      t.menuPresent = q4.1.menuPresent ∧
      t.record_pointcloud = q4.1.record_pointcloud ∧
      t.recording_directory = q4.1.recording_directory ∧
      t.reconnection_attempts = q4.1.reconnection_attempts ∧
      t.missed_frame_count = q4.1.missed_frame_count ∧
      t.last_frame_time = q4.1.last_frame_time ∧
      t.royale_timestamp_offset = q4.1.royale_timestamp_offset := by
    intro t ht
    rcases on_reconnection_state q4.1 with h | h <;>
      rw [hq5, h] at ht <;> rw [← ht] <;>
      exact ⟨rfl, rfl, rfl, rfl, rfl, rfl, rfl, rfl⟩
  obtain ⟨m1, m2, m3, m4, m5, m6, m7, m8⟩ := hpres q5.1 rfl
  refine ⟨rfl, ?_, ?_, ?_, ?_, ?_, ?_, ?_, ?_, ?_, ?_⟩
  · show q5.1.cameraPresent = s.cameraPresent
    rw [m1, k4, e1, g4, f4]
  · show q5.1.menuPresent = s.menuPresent
    rw [m2, k5, e1, g5, f5]
  · show q5.1.record_pointcloud = s.record_pointcloud
    rw [m3, hrpq]
  · show q5.1.recording_directory = s.recording_directory
    rw [m4, hdirq]
  · show q5.1.reconnection_attempts = s.reconnection_attempts
    rw [m5, k7, e1, g7, f7]
  · show q5.1.missed_frame_count = s.missed_frame_count
    rw [m6, k8, e1, g8, f8]
  · show q5.1.last_frame_time = s.last_frame_time
    rw [m7, k9, e1, g9, f9]
  · show q5.1.royale_timestamp_offset = s.royale_timestamp_offset
    rw [m8, k6, e1, g6, f6]
  · intro dir hdir hrp
    obtain ⟨r1, r2⟩ := on_reconnection_rec q4.1 dir
      (by rw [hdirq, hdir]) (by rw [hrpq, hrp])
    constructor
    · show q5.1.recording_reconnection_count
        = s.recording_reconnection_count + 1
      rw [hq5, r1]
      show q4.1.recording_reconnection_count + 1
        = s.recording_reconnection_count + 1
      rw [hcntq]
    · show segmentsOpened
        (Effect.camInit ::
          (q1.2 ++ q2.2 ++ q3.2 ++ q4.2 ++ q5.2 ++
           [Effect.notifyAll "picoflexx.reconnected"])) = _
      have : segmentsOpened q5.2
          = [(dir ++ "/")
              ++ pointcloudFilename (s.recording_reconnection_count + 1)] := by
        rw [hq5, r2, hcntq]
      simp only [segmentsOpened, List.filterMap_cons, List.filterMap_append]
      simp only [segmentsOpened] at f10 g11 e2 k10 this
      rw [f10, g11, e2, k10, this]
      simp
  · intro h
    obtain ⟨r1, r2⟩ := on_reconnection_norec q4.1 (by
      rcases h with h | h
      · exact Or.inl (by rw [hdirq, h])
      · exact Or.inr (by rw [hrpq, h]))
    constructor
    · show q5.1.recording_reconnection_count = s.recording_reconnection_count
      rw [hq5, r1, hcntq]
    · show segmentsOpened
        (Effect.camInit ::
          (q1.2 ++ q2.2 ++ q3.2 ++ q4.2 ++ q5.2 ++
           [Effect.notifyAll "picoflexx.reconnected"])) = []
      have : segmentsOpened q5.2 = [] := by rw [hq5, r2]
      simp only [segmentsOpened, List.filterMap_cons, List.filterMap_append]
      simp only [segmentsOpened] at f10 g11 e2 k10 this
      rw [f10, g11, e2, k10, this]
      simp

theorem load_camera_state_eff (cam : CameraEnv) (s : SourceState) :
    (load_camera_state cam s).2 = [] ∨
    (load_camera_state cam s).2 = [Effect.logErrorNotOnline] := by
  unfold load_camera_state
  split
  · exact Or.inr rfl
  · exact Or.inl rfl

theorem start_pointcloud_recording_eff (rec_loc : String) (s : SourceState) :
    (start_pointcloud_recording rec_loc s).2 = [] ∨
    ∃ p, (start_pointcloud_recording rec_loc s).2
          = [Effect.camStartRecording p] := by
  unfold start_pointcloud_recording
  split
  · exact Or.inl rfl
  · exact Or.inr ⟨_, rfl⟩

theorem on_reconnection_eff (s : SourceState) :
    (on_reconnection s).2 = [] ∨
    ∃ p, (on_reconnection s).2 = [Effect.camStartRecording p] := by
  unfold on_reconnection
  rcases hdir : s.recording_directory with _ | dir
  · exact Or.inl rfl
  · dsimp only
    split
    · exact start_pointcloud_recording_eff dir _
    · exact Or.inl rfl

theorem stop_pointcloud_recording_eff (s : SourceState) :
    (stop_pointcloud_recording s).2 = [] ∨
    (stop_pointcloud_recording s).2 = [Effect.camStopRecording] := by
  unfold stop_pointcloud_recording
  split
  · exact Or.inl rfl
  · exact Or.inr rfl

theorem on_disconnection_eff (s : SourceState) :
    (on_disconnection s).2 = [] ∨
    (on_disconnection s).2 = [Effect.camStopRecording] := by
  unfold on_disconnection
  split
  · exact stop_pointcloud_recording_eff s
  · exact Or.inl rfl

/-- `init_device` never emits the `picoflexx.disconnected`
notification (only `attempt_reconnect` does, on the first failed
cycle). -/
theorem init_device_no_disconnect (cam : CameraEnv) (s : SourceState) :
    Effect.notifyAll "picoflexx.disconnected" ∉ (init_device cam s).2.1 := by
  by_cases h1 : cam.initialize_ok = false
  · rw [init_device_fail cam s (Or.inl h1)]
    simp
  · by_cases h2 : cam.is_connected = false
    · rw [init_device_fail cam s (Or.inr h2)]
      simp
    · unfold init_device
      rw [if_neg h1, if_neg h2]
      dsimp only
      set q1 := (match s.selected_usecase with
        | some u => set_usecase cam u s
        | none => (s, ([] : List Effect))) with hq1
      set q2 := set_exposure_mode cam s.current_exposure_mode q1.1 with hq2
      set q3 : SourceState × List Effect :=
        (if q2.1.current_exposure_mode = false ∧ q2.1.current_exposure ≠ 0 then
          (q2.1, [Effect.camSetExposure q2.1.current_exposure,
                  Effect.notifySetExposureDelayed q2.1.current_exposure])
        else (q2.1, [])) with hq3
      set q4 := load_camera_state cam q3.1 with hq4
      set q5 := on_reconnection q4.1 with hq5
      have hq1n : Effect.notifyAll "picoflexx.disconnected" ∉ q1.2 := by
        rcases hu : s.selected_usecase with _ | u <;> rw [hq1, hu]
        · simp
        · unfold set_usecase
          dsimp only
          intro hm
          rcases List.mem_cons.mp hm with h | h
          · simp at h
          · rcases load_camera_state_eff cam s with he | he <;> rw [he] at h <;>
              simp at h
      have hq2n : Effect.notifyAll "picoflexx.disconnected" ∉ q2.2 := by
        rw [hq2]
        unfold set_exposure_mode
        simp
      have hq3n : Effect.notifyAll "picoflexx.disconnected" ∉ q3.2 := by
        rw [hq3]
        split <;> simp
      have hq4n : Effect.notifyAll "picoflexx.disconnected" ∉ q4.2 := by
        rw [hq4]
        rcases load_camera_state_eff cam q3.1 with he | he <;> rw [he] <;> simp
      have hq5n : Effect.notifyAll "picoflexx.disconnected" ∉ q5.2 := by
        rw [hq5]
        rcases on_reconnection_eff q4.1 with he | ⟨p, he⟩ <;> rw [he] <;> simp
      intro hmem
      rcases List.mem_cons.mp hmem with h | h
      · simp at h
      rcases List.mem_append.mp h with h | h
      · rcases List.mem_append.mp h with h | h
        · rcases List.mem_append.mp h with h | h
          · rcases List.mem_append.mp h with h | h
            · rcases List.mem_append.mp h with h | h
              · exact hq1n h
              · exact hq2n h
            · exact hq3n h
          · exact hq4n h
        · exact hq5n h
      · simp at h

theorem attempt_reconnect_nocam (cam : CameraEnv) (s : SourceState)
    (hcam : s.cameraPresent = false) :
    attempt_reconnect cam s
      = (s, [Effect.logReconnectCall, Effect.warnCameraNone]) := by
  unfold attempt_reconnect
  rw [if_pos hcam]

/-- After a failed reconnection attempt the only state change is the
incremented attempt counter; no recording segment is opened. -/
theorem attempt_reconnect_fail (cam : CameraEnv) (s : SourceState)
    (hcam : s.cameraPresent = true)
    (hfail : cam.initialize_ok = false ∨ cam.is_connected = false) :
    (attempt_reconnect cam s).1
        = { s with reconnection_attempts := s.reconnection_attempts + 1 } ∧
    segmentsOpened (attempt_reconnect cam s).2 = [] := by
  unfold attempt_reconnect
  rw [if_neg (by simp [hcam])]
  dsimp only
  set p1 : SourceState × List Effect :=
    (if s.reconnection_attempts = 0 then
      ((on_disconnection s).1,
        (on_disconnection s).2 ++ [Effect.notifyAll "picoflexx.disconnected"])
    else (s, [])) with hp1
  have hp1s : p1.1 = s ∧ segmentsOpened p1.2 = [] := by
    rw [hp1]
    split
    · refine ⟨on_disconnection_state s, ?_⟩
      rw [segmentsOpened_append, on_disconnection_segments s]
      simp [segmentsOpened]
    · exact ⟨rfl, rfl⟩
  obtain ⟨hs, he⟩ := hp1s
  rw [init_device_fail cam _ hfail]
  dsimp only
  rw [if_neg (by simp)]
  constructor
  · rw [hs]
  · simp only [segmentsOpened, List.filterMap_cons, List.filterMap_append]
    simp only [segmentsOpened] at he
    rw [he]
    simp

theorem init_device_has_init (cam : CameraEnv) (s : SourceState) :
    Effect.camInit ∈ (init_device cam s).2.1 := by
  unfold init_device
  split
  · simp
  · split
    · simp
    · exact List.mem_cons_self _ _

/-- A successful `attempt_reconnect`: the attempt counter is reset to
zero, the handle and recording option survive, and exactly one new
segment is opened when a pointcloud recording is in progress. -/
theorem attempt_reconnect_ok (cam : CameraEnv) (s : SourceState)
    (hcam : s.cameraPresent = true)
    (h1 : cam.initialize_ok = true) (h2 : cam.is_connected = true) :
    (attempt_reconnect cam s).1.reconnection_attempts = 0 ∧
    (attempt_reconnect cam s).1.cameraPresent = s.cameraPresent ∧
    (attempt_reconnect cam s).1.menuPresent = s.menuPresent ∧
    (attempt_reconnect cam s).1.record_pointcloud = s.record_pointcloud ∧
    (attempt_reconnect cam s).1.recording_directory = s.recording_directory ∧
    (attempt_reconnect cam s).1.royale_timestamp_offset
      = s.royale_timestamp_offset ∧
    (∀ dir, s.recording_directory = some dir → s.record_pointcloud = true →
      (attempt_reconnect cam s).1.recording_reconnection_count
          = s.recording_reconnection_count + 1 ∧
      segmentsOpened (attempt_reconnect cam s).2
          = [(dir ++ "/")
              ++ pointcloudFilename (s.recording_reconnection_count + 1)]) ∧
    ((s.recording_directory = none ∨ s.record_pointcloud = false) →
      (attempt_reconnect cam s).1.recording_reconnection_count
          = s.recording_reconnection_count ∧
      segmentsOpened (attempt_reconnect cam s).2 = []) := by
  unfold attempt_reconnect
  rw [if_neg (by simp [hcam])]
  dsimp only
  set p1 : SourceState × List Effect :=
    (if s.reconnection_attempts = 0 then
      ((on_disconnection s).1,
        (on_disconnection s).2 ++ [Effect.notifyAll "picoflexx.disconnected"])
    else (s, [])) with hp1
  have hp1s : p1.1 = s ∧ segmentsOpened p1.2 = [] := by
    rw [hp1]
    split
    · refine ⟨on_disconnection_state s, ?_⟩
      rw [segmentsOpened_append, on_disconnection_segments s]
      simp [segmentsOpened]
    · exact ⟨rfl, rfl⟩
  obtain ⟨hs, he⟩ := hp1s
  set s2 := { p1.1 with reconnection_attempts :=
                          p1.1.reconnection_attempts + 1 } with hs2
  have hs2eq : s2 = { s with reconnection_attempts :=
                              s.reconnection_attempts + 1 } := by
    rw [hs2, hs]
  obtain ⟨i0, i1, i2, i3, i4, i5, i6, i7, i8, irec, inorec⟩ :=
    init_device_ok cam s2 h1 h2
  rw [i0]
  rw [if_pos rfl]
  have hcam2 : s2.cameraPresent = s.cameraPresent := by rw [hs2eq]
  have hmenu2 : s2.menuPresent = s.menuPresent := by rw [hs2eq]
  have hrp2 : s2.record_pointcloud = s.record_pointcloud := by rw [hs2eq]
  have hdir2 : s2.recording_directory = s.recording_directory := by
    rw [hs2eq]
  have hoff2 : s2.royale_timestamp_offset = s.royale_timestamp_offset := by
    rw [hs2eq]
  have hcnt2 : s2.recording_reconnection_count
      = s.recording_reconnection_count := by rw [hs2eq]
  refine ⟨rfl, ?_, ?_, ?_, ?_, ?_, ?_, ?_⟩
  · show (init_device cam s2).1.cameraPresent = s.cameraPresent
    rw [i1, hcam2]
  · show (init_device cam s2).1.menuPresent = s.menuPresent
    rw [i2, hmenu2]
  · show (init_device cam s2).1.record_pointcloud = s.record_pointcloud
    rw [i3, hrp2]
  · show (init_device cam s2).1.recording_directory = s.recording_directory
    rw [i4, hdir2]
  · show (init_device cam s2).1.royale_timestamp_offset
      = s.royale_timestamp_offset
    rw [i8, hoff2]
  · intro dir hdir hrp
    obtain ⟨c1, c2⟩ := irec dir (by rw [hdir2, hdir]) (by rw [hrp2, hrp])
    constructor
    · show (init_device cam s2).1.recording_reconnection_count
        = s.recording_reconnection_count + 1
      rw [c1, hcnt2]
    · show segmentsOpened
        (Effect.logReconnectCall :: (p1.2 ++ (init_device cam s2).2.1)) = _
      simp only [segmentsOpened, List.filterMap_cons, List.filterMap_append]
      simp only [segmentsOpened] at he c2
      rw [he, c2, hcnt2]
      simp
  · intro h
    obtain ⟨c1, c2⟩ := inorec (by
      rcases h with h | h
      · exact Or.inl (by rw [hdir2, h])
      · exact Or.inr (by rw [hrp2, h]))
    constructor
    · show (init_device cam s2).1.recording_reconnection_count
        = s.recording_reconnection_count
      rw [c1, hcnt2]
    · show segmentsOpened
        (Effect.logReconnectCall :: (p1.2 ++ (init_device cam s2).2.1)) = []
      simp only [segmentsOpened, List.filterMap_cons, List.filterMap_append]
      simp only [segmentsOpened] at he c2
      rw [he, c2]
      simp

/-- The observable protocol of `attempt_reconnect` when the handle
exists: the device is always re-initialised, the `disconnected`
notification is emitted exactly on the first failed cycle, and the
attempt counter resets on success and increments on failure. -/
theorem attempt_reconnect_events (cam : CameraEnv) (s : SourceState)
    (hcam : s.cameraPresent = true) :
    Effect.camInit ∈ (attempt_reconnect cam s).2 ∧
    (Effect.notifyAll "picoflexx.disconnected" ∈ (attempt_reconnect cam s).2
      ↔ s.reconnection_attempts = 0) ∧
    (attempt_reconnect cam s).1.reconnection_attempts
      = (if cam.initialize_ok = true ∧ cam.is_connected = true then 0
         else s.reconnection_attempts + 1) := by
  unfold attempt_reconnect
  rw [if_neg (by simp [hcam])]
  dsimp only
  set p1 : SourceState × List Effect :=
    (if s.reconnection_attempts = 0 then
      ((on_disconnection s).1,
        (on_disconnection s).2 ++ [Effect.notifyAll "picoflexx.disconnected"])
    else (s, [])) with hp1
  have hp1st : p1.1 = s := by
    rw [hp1]
    split
    · exact on_disconnection_state s
    · rfl
  refine ⟨?_, ?_, ?_⟩
  · exact List.mem_cons_of_mem _
      (List.mem_append.mpr (Or.inr (init_device_has_init cam _)))
  · constructor
    · intro hmem
      by_contra hne
      have hp1e : p1.2 = [] := by
        rw [hp1, if_neg hne]
      rcases List.mem_cons.mp hmem with h | h
      · simp at h
      · rw [hp1e] at h
        simp only [List.nil_append] at h
        exact init_device_no_disconnect cam _ h
    · intro h0
      have hp1e : p1.2 = (on_disconnection s).2
          ++ [Effect.notifyAll "picoflexx.disconnected"] := by
        rw [hp1, if_pos h0]
      apply List.mem_cons_of_mem
      apply List.mem_append.mpr
      left
      rw [hp1e]
      exact List.mem_append.mpr (Or.inr (List.mem_singleton.mpr rfl))
  · by_cases hok : cam.initialize_ok = true ∧ cam.is_connected = true
    · obtain ⟨j0, j1, j2, j3, j4, j5, j6, j7, j8, _, _⟩ :=
        init_device_ok cam { p1.1 with reconnection_attempts :=
                                         p1.1.reconnection_attempts + 1 }
          hok.1 hok.2
      rw [if_pos hok, j0]
      rw [if_pos rfl]
    · have hfail : cam.initialize_ok = false ∨ cam.is_connected = false := by
        cases hio : cam.initialize_ok with
        | false => exact Or.inl rfl
        | true =>
          cases hic : cam.is_connected with
          | false => exact Or.inr rfl
          | true => exact absurd ⟨hio, hic⟩ hok
      rw [if_neg hok, init_device_fail cam _ hfail]
      dsimp only
      rw [if_neg (by simp)]
      show ({ p1.1 with reconnection_attempts :=
                p1.1.reconnection_attempts + 1 } : SourceState).reconnection_attempts
          = s.reconnection_attempts + 1
      show p1.1.reconnection_attempts + 1 = s.reconnection_attempts + 1
      rw [hp1st]

theorem attempt_reconnect_logged (cam : CameraEnv) (s : SourceState) :
    Effect.logReconnectCall ∈ (attempt_reconnect cam s).2 := by
  unfold attempt_reconnect
  split
  · exact List.mem_cons_self _ _
  · exact List.mem_cons_self _ _

/-- A successful poll: the failure tracker is reset, the offset is
kept when already set and anchored at `pupilNow - unixNow` when still
unset, and both returned timestamps are shifted by the stored
offset. -/
theorem get_frames_success (cam : CameraEnv) (u p : ℚ) (f : FramePair)
    (s : SourceState) :
    (get_frames cam u p (some f) s).1.missed_frame_count = 0 ∧
    (get_frames cam u p (some f) s).1.last_frame_time = u ∧
    (get_frames cam u p (some f) s).2.1 = [] ∧
    (get_frames cam u p (some f) s).1.royale_timestamp_offset
      = some (s.royale_timestamp_offset.getD (p - u)) ∧
    (get_frames cam u p (some f) s).2.2
      = some ⟨f.irTimestamp + s.royale_timestamp_offset.getD (p - u),
              f.depthTimestamp + s.royale_timestamp_offset.getD (p - u)⟩ := by
  unfold get_frames
  rcases hoff : s.royale_timestamp_offset with _ | v
  · simp [hoff]
  · simp [hoff]

theorem get_frames_timeout_no_trigger (cam : CameraEnv) (u p : ℚ)
    (s : SourceState)
    (h : ¬(s.missed_frame_count + 1 > 45 ∨ u - s.last_frame_time > 5)) :
    get_frames cam u p none s
      = ({ s with missed_frame_count := s.missed_frame_count + 1 },
         [], none) := by
  unfold get_frames
  rw [if_neg h]

theorem get_frames_timeout_trigger (cam : CameraEnv) (u p : ℚ)
    (s : SourceState)
    (h : s.missed_frame_count + 1 > 45 ∨ u - s.last_frame_time > 5) :
    (get_frames cam u p none s).1.missed_frame_count = 0 ∧
    (get_frames cam u p none s).1.last_frame_time = u ∧
    (get_frames cam u p none s).2.1
      = (attempt_reconnect cam
          { s with missed_frame_count := s.missed_frame_count + 1 }).2 ∧
    (get_frames cam u p none s).2.2 = none ∧
    (get_frames cam u p none s).1.royale_timestamp_offset
      = (attempt_reconnect cam
          { s with missed_frame_count := s.missed_frame_count + 1
          }).1.royale_timestamp_offset := by
  unfold get_frames
  rw [if_pos h]
  exact ⟨rfl, rfl, rfl, rfl, rfl⟩

/-- One step of the failure tracker, reconstructed from the
observable per-tick history: a successful poll or a triggered
reconnection attempt resets the tracker to `(0, now)`, any other
timeout increments the miss counter. -/
def trackerStep (acc : ℕ × ℚ) (p : TickInput × Bool) : ℕ × ℚ :=
  if p.1.poll.isSome || p.2 then (0, p.1.unixNow) else (acc.1 + 1, acc.2)

/-- Relative to a tracker value `(c, t)`, each annotated tick
`(input, triggered)` of a run triggers a reconnection attempt exactly
when the poll timed out and either the incremented miss counter
exceeds 45 or more than 5 seconds have passed since the tracked
time. -/
def triggersConsistent (c : ℕ) (t : ℚ) : List (TickInput × Bool) → Prop
  | [] => True
  | p :: ps =>
    (p.2 = true ↔ (p.1.poll = none ∧ (45 < c + 1 ∨ 5 < p.1.unixNow - t))) ∧
    triggersConsistent (trackerStep (c, t) p).1 (trackerStep (c, t) p).2 ps

theorem runTicks_cons (s : SourceState) (t : TickInput) (ts : List TickInput) :
    runTicks s (t :: ts)
      = ((runTicks (get_frames t.cam t.unixNow t.pupilNow t.poll s).1 ts).1,
         ((get_frames t.cam t.unixNow t.pupilNow t.poll s).2.1,
          (get_frames t.cam t.unixNow t.pupilNow t.poll s).2.2)
           :: (runTicks (get_frames t.cam t.unixNow t.pupilNow t.poll s).1
                ts).2) := rfl

theorem triggerFlags_cons (s : SourceState) (t : TickInput)
    (ts : List TickInput) :
    triggerFlags s (t :: ts)
      = decide (Effect.logReconnectCall
          ∈ (get_frames t.cam t.unixNow t.pupilNow t.poll s).2.1)
        :: triggerFlags (get_frames t.cam t.unixNow t.pupilNow t.poll s).1
             ts := rfl

/-- The failure tracker of `get_frames` is fully characterised by the
observable per-tick history: the stored counter and time equal the
fold of `trackerStep` over the annotated trace, and a tick triggers a
reconnection attempt exactly when it is a timeout whose incremented
miss counter exceeds 45 or that is more than 5 seconds past the
tracked reset time. -/
theorem tracker_characterisation (ts : List TickInput) :
    ∀ s : SourceState,
      triggersConsistent s.missed_frame_count s.last_frame_time
        (ts.zip (triggerFlags s ts)) ∧
      ((runTicks s ts).1.missed_frame_count,
        (runTicks s ts).1.last_frame_time)
        = (ts.zip (triggerFlags s ts)).foldl trackerStep
            (s.missed_frame_count, s.last_frame_time) := by
  induction ts with
  | nil => exact fun s => ⟨trivial, rfl⟩
  | cons t ts ih =>
    intro s
    rcases hpoll : t.poll with _ | f
    · by_cases hcond : s.missed_frame_count + 1 > 45
          ∨ t.unixNow - s.last_frame_time > 5
      · -- timeout that triggers a reconnection attempt
        obtain ⟨m1, m2, m3, _, _⟩ :=
          get_frames_timeout_trigger t.cam t.unixNow t.pupilNow s hcond
        have hgf1 : (get_frames t.cam t.unixNow t.pupilNow t.poll
            s).1.missed_frame_count = 0 := by rw [hpoll]; exact m1
        have hgf2 : (get_frames t.cam t.unixNow t.pupilNow t.poll
            s).1.last_frame_time = t.unixNow := by rw [hpoll]; exact m2
        have hflag : decide (Effect.logReconnectCall
            ∈ (get_frames t.cam t.unixNow t.pupilNow t.poll s).2.1)
            = true := by
          rw [hpoll, m3]
          exact decide_eq_true (attempt_reconnect_logged t.cam _)
        have hstep : trackerStep
            (s.missed_frame_count, s.last_frame_time) (t, true)
            = (0, t.unixNow) := by
          unfold trackerStep
          simp
        refine ⟨?_, ?_⟩
        · rw [triggerFlags_cons, hflag, List.zip_cons_cons]
          refine ⟨⟨fun _ => ⟨hpoll, hcond⟩, fun _ => rfl⟩, ?_⟩
          rw [hstep]
          have h2 := (ih (get_frames t.cam t.unixNow t.pupilNow t.poll s).1).1
          rw [hgf1, hgf2] at h2
          exact h2
        · rw [runTicks_cons, triggerFlags_cons, hflag, List.zip_cons_cons,
            List.foldl_cons, hstep]
          have h2 := (ih (get_frames t.cam t.unixNow t.pupilNow t.poll s).1).2
          rw [hgf1, hgf2] at h2
          exact h2
      · -- timeout under both thresholds
        have hgf : get_frames t.cam t.unixNow t.pupilNow t.poll s
            = ({ s with missed_frame_count := s.missed_frame_count + 1 },
               [], none) := by
          rw [hpoll]
          exact get_frames_timeout_no_trigger t.cam t.unixNow t.pupilNow
            s hcond
        have hgf1 : (get_frames t.cam t.unixNow t.pupilNow t.poll
            s).1.missed_frame_count = s.missed_frame_count + 1 := by rw [hgf]
        have hgf2 : (get_frames t.cam t.unixNow t.pupilNow t.poll
            s).1.last_frame_time = s.last_frame_time := by rw [hgf]
        have hflag : decide (Effect.logReconnectCall
            ∈ (get_frames t.cam t.unixNow t.pupilNow t.poll s).2.1)
            = false := by
          rw [hgf]
          simp
        have hstep : trackerStep
            (s.missed_frame_count, s.last_frame_time) (t, false)
            = (s.missed_frame_count + 1, s.last_frame_time) := by
          unfold trackerStep
          simp [hpoll]
        refine ⟨?_, ?_⟩
        · rw [triggerFlags_cons, hflag, List.zip_cons_cons]
          refine ⟨⟨fun hct => absurd hct (by simp),
            fun hc => absurd hc.2 hcond⟩, ?_⟩
          rw [hstep]
          have h2 := (ih (get_frames t.cam t.unixNow t.pupilNow t.poll s).1).1
          rw [hgf1, hgf2] at h2
          exact h2
        · rw [runTicks_cons, triggerFlags_cons, hflag, List.zip_cons_cons,
            List.foldl_cons, hstep]
          have h2 := (ih (get_frames t.cam t.unixNow t.pupilNow t.poll s).1).2
          rw [hgf1, hgf2] at h2
          exact h2
    · -- successful poll
      obtain ⟨m1, m2, m3, _, _⟩ :=
        get_frames_success t.cam t.unixNow t.pupilNow f s
      have hgf1 : (get_frames t.cam t.unixNow t.pupilNow t.poll
          s).1.missed_frame_count = 0 := by rw [hpoll]; exact m1
      have hgf2 : (get_frames t.cam t.unixNow t.pupilNow t.poll
          s).1.last_frame_time = t.unixNow := by rw [hpoll]; exact m2
      have hflag : decide (Effect.logReconnectCall
          ∈ (get_frames t.cam t.unixNow t.pupilNow t.poll s).2.1)
          = false := by
        rw [hpoll, m3]
        simp
      have hstep : trackerStep
          (s.missed_frame_count, s.last_frame_time) (t, false)
          = (0, t.unixNow) := by
        unfold trackerStep
        simp [hpoll]
      refine ⟨?_, ?_⟩
      · rw [triggerFlags_cons, hflag, List.zip_cons_cons]
        refine ⟨⟨fun hct => absurd hct (by simp), fun hc => ?_⟩, ?_⟩
        · rw [hpoll] at hc
          exact absurd hc.1 (by simp)
        · rw [hstep]
          have h2 := (ih (get_frames t.cam t.unixNow t.pupilNow t.poll s).1).1
          rw [hgf1, hgf2] at h2
          exact h2
      · rw [runTicks_cons, triggerFlags_cons, hflag, List.zip_cons_cons,
          List.foldl_cons, hstep]
        have h2 := (ih (get_frames t.cam t.unixNow t.pupilNow t.poll s).1).2
        rw [hgf1, hgf2] at h2
        exact h2

/-- One connection drop-and-restore cycle while online state is
tracked by `attempt_reconnect`: a first reconnection attempt against
an unreachable device (which emits `disconnected` and stops the
current segment), then a successful one (which restores the device
and, during a recording, opens the next segment). -/
def dropRestoreCycle (s : SourceState) : SourceState × List Effect :=
  let p1 := attempt_reconnect camOffline s
  let p2 := attempt_reconnect camOnline p1.1
  (p2.1, p1.2 ++ p2.2)

/-- `k` consecutive drop-and-restore cycles. -/
def runCycles : ℕ → SourceState → SourceState × List Effect
  | 0, s => (s, [])
  | k + 1, s =>
    let p := dropRestoreCycle s
    let r := runCycles k p.1
    (r.1, p.2 ++ r.2)

/-- A recording session: the `recording.started` notification
followed by `k` drop-and-restore cycles. -/
def sessionRun (dir : String) (k : ℕ) (s : SourceState) : List Effect :=
  let p1 := on_notify (Notification.recordingStarted dir) s
  let p2 := runCycles k p1.1
  p1.2 ++ p2.2

theorem dropRestoreCycle_spec (s : SourceState) (dir : String)
    (hcam : s.cameraPresent = true) (hrp : s.record_pointcloud = true)
    (hdir : s.recording_directory = some dir) :
    (dropRestoreCycle s).1.cameraPresent = true ∧
    (dropRestoreCycle s).1.record_pointcloud = true ∧
    (dropRestoreCycle s).1.recording_directory = some dir ∧
    (dropRestoreCycle s).1.recording_reconnection_count
      = s.recording_reconnection_count + 1 ∧
    segmentsOpened (dropRestoreCycle s).2
      = [(dir ++ "/")
          ++ pointcloudFilename (s.recording_reconnection_count + 1)] := by
  unfold dropRestoreCycle
  obtain ⟨hf1, hf2⟩ := attempt_reconnect_fail camOffline s hcam (Or.inl rfl)
  set s1 := (attempt_reconnect camOffline s).1 with hs1
  have hcam1 : s1.cameraPresent = true := by rw [hf1]; exact hcam
  have hrp1 : s1.record_pointcloud = true := by rw [hf1]; exact hrp
  have hdir1 : s1.recording_directory = some dir := by
    rw [hf1]; exact hdir
  have hcnt1 : s1.recording_reconnection_count
      = s.recording_reconnection_count := by rw [hf1]
  obtain ⟨_, o1, _, o3, o4, _, orec, _⟩ :=
    attempt_reconnect_ok camOnline s1 hcam1 rfl rfl
  obtain ⟨c1, c2⟩ := orec dir hdir1 hrp1
  refine ⟨?_, ?_, ?_, ?_, ?_⟩
  · rw [o1, hcam1]
  · rw [o3, hrp1]
  · rw [o4, hdir1]
  · rw [c1, hcnt1]
  · rw [segmentsOpened_append, hf2, c2, hcnt1]
    simp

theorem runCycles_spec (dir : String) :
    ∀ (k : ℕ) (s : SourceState), s.cameraPresent = true →
      s.record_pointcloud = true → s.recording_directory = some dir →
      segmentsOpened (runCycles k s).2
        = (List.range k).map (fun i => (dir ++ "/")
            ++ pointcloudFilename (s.recording_reconnection_count + i + 1)) := by
  intro k
  induction k with
  | zero =>
    intro s _ _ _
    simp [runCycles, segmentsOpened]
  | succ k ih =>
    intro s hcam hrp hdir
    obtain ⟨d1, d2, d3, d4, d5⟩ := dropRestoreCycle_spec s dir hcam hrp hdir
    show segmentsOpened ((dropRestoreCycle s).2
        ++ (runCycles k (dropRestoreCycle s).1).2) = _
    rw [segmentsOpened_append, d5, ih (dropRestoreCycle s).1 d1 d2 d3, d4]
    rw [List.range_succ_eq_map, List.map_cons, List.map_map,
      List.singleton_append]
    congr 1
    apply List.map_congr_left
    intro i _
    have harith : s.recording_reconnection_count + 1 + i + 1
        = s.recording_reconnection_count + (i + 1) + 1 := by omega
    exact congrArg
      (fun n => (dir ++ "/") ++ pointcloudFilename n) harith

theorem pointcloudFilename_zero : pointcloudFilename 0 = "pointcloud.rrf" :=
  rfl

theorem pointcloudFilename_succ (n : ℕ) :
    pointcloudFilename (n + 1)
      = ("pointcloud_" ++ Nat.repr (n + 1)) ++ ".rrf" := by
  unfold pointcloudFilename
  rw [if_neg (Nat.succ_ne_zero n)]

/-- The full list of segment paths a session with `k` cycles opens. -/
theorem sessionRun_segments (dir : String) (k : ℕ) (s : SourceState)
    (hmenu : s.menuPresent = true) (hcam : s.cameraPresent = true)
    (hrp : s.record_pointcloud = true) :
    segmentsOpened (sessionRun dir k s)
      = ((dir ++ "/") ++ "pointcloud.rrf")
        :: (List.range k).map (fun i => (dir ++ "/")
             ++ (("pointcloud_" ++ Nat.repr (i + 1)) ++ ".rrf")) := by
  unfold sessionRun on_notify
  rw [if_neg (by simp [hmenu])]
  dsimp only
  set s1 := { s with frame_count := (-1 : ℤ),
                     recording_directory := some dir,
                     recording_reconnection_count := 0 } with hs1
  have hstart : (start_pointcloud_recording dir s1).1 = s1 :=
    start_pointcloud_recording_state dir s1
  have hseg0 : segmentsOpened (start_pointcloud_recording dir s1).2
      = [(dir ++ "/") ++ pointcloudFilename 0] := by
    rw [start_pointcloud_recording_segments dir s1 (by rw [hs1]; exact hrp)]
  have hcyc := runCycles_spec dir k (start_pointcloud_recording dir s1).1
    (by rw [hstart, hs1]; exact hcam)
    (by rw [hstart, hs1]; exact hrp)
    (by rw [hstart, hs1])
  rw [segmentsOpened_append, segmentsOpened_append]
  rw [hseg0, hcyc, hstart]
  have hcnt : s1.recording_reconnection_count = 0 := by rw [hs1]
  rw [hcnt]
  show segmentsOpened (save_recording_metadata dir s1)
      ++ ([(dir ++ "/") ++ pointcloudFilename 0]
          ++ (List.range k).map fun i => (dir ++ "/")
               ++ pointcloudFilename (0 + i + 1)) = _
  unfold save_recording_metadata
  simp only [segmentsOpened, List.filterMap_cons, List.filterMap_nil,
    List.nil_append]
  rw [pointcloudFilename_zero, List.singleton_append]
  congr 1
  apply List.map_congr_left
  intro i _
  show (dir ++ "/") ++ pointcloudFilename (0 + i + 1)
    = (dir ++ "/") ++ (("pointcloud_" ++ Nat.repr (i + 1)) ++ ".rrf")
  rw [Nat.zero_add, pointcloudFilename_succ]

theorem sessionNames_nodup (dir : String) (k : ℕ) :
    (((dir ++ "/") ++ "pointcloud.rrf")
      :: (List.range k).map (fun i => (dir ++ "/")
           ++ (("pointcloud_" ++ Nat.repr (i + 1)) ++ ".rrf"))).Nodup := by
  rw [List.nodup_cons]
  constructor
  · intro hmem
    obtain ⟨i, _, heq⟩ := List.mem_map.mp hmem
    have h2 := strAppend_cancel_left (dir ++ "/") _ _ heq
    exact pointcloud_base_ne_numbered (Nat.repr (i + 1)) h2.symm
  · apply List.Nodup.map
    · intro i j hij
      have h2 := strAppend_cancel_left (dir ++ "/") _ _ hij
      have h3 := pointcloud_numbered_inj (i + 1) (j + 1) h2
      omega
    · exact List.nodup_range k

theorem init_device_offset (cam : CameraEnv) (s : SourceState) :
    (init_device cam s).1.royale_timestamp_offset
      = s.royale_timestamp_offset := by
  by_cases h1 : cam.initialize_ok = false
  · rw [init_device_fail cam s (Or.inl h1)]
  · by_cases h2 : cam.is_connected = false
    · rw [init_device_fail cam s (Or.inr h2)]
    · obtain ⟨_, _, _, _, _, _, _, _, i8, _, _⟩ :=
        init_device_ok cam s (by revert h1; cases cam.initialize_ok <;> simp)
          (by revert h2; cases cam.is_connected <;> simp)
      exact i8

theorem attempt_reconnect_offset (cam : CameraEnv) (s : SourceState) :
    (attempt_reconnect cam s).1.royale_timestamp_offset
      = s.royale_timestamp_offset := by
  unfold attempt_reconnect
  split
  · rfl
  · dsimp only
    set p1 : SourceState × List Effect :=
      (if s.reconnection_attempts = 0 then
        ((on_disconnection s).1,
          (on_disconnection s).2
            ++ [Effect.notifyAll "picoflexx.disconnected"])
      else (s, [])) with hp1
    have hp1s : p1.1 = s := by
      rw [hp1]
      split
      · exact on_disconnection_state s
      · rfl
    set s2 := { p1.1 with reconnection_attempts :=
                            p1.1.reconnection_attempts + 1 } with hs2
    have hoff2 : s2.royale_timestamp_offset = s.royale_timestamp_offset := by
      rw [hs2]
      show p1.1.royale_timestamp_offset = s.royale_timestamp_offset
      rw [hp1s]
    split
    · show ({ (init_device cam s2).1 with reconnection_attempts := 0 }
          : SourceState).royale_timestamp_offset = s.royale_timestamp_offset
      show (init_device cam s2).1.royale_timestamp_offset
          = s.royale_timestamp_offset
      rw [init_device_offset, hoff2]
    · show (init_device cam s2).1.royale_timestamp_offset
          = s.royale_timestamp_offset
      rw [init_device_offset, hoff2]

theorem get_frames_timeout_offset (cam : CameraEnv) (u p : ℚ)
    (s : SourceState) :
    (get_frames cam u p none s).1.royale_timestamp_offset
      = s.royale_timestamp_offset := by
  by_cases h : s.missed_frame_count + 1 > 45 ∨ u - s.last_frame_time > 5
  · obtain ⟨_, _, _, _, m5⟩ := get_frames_timeout_trigger cam u p s h
    rw [m5, attempt_reconnect_offset]
  · rw [get_frames_timeout_no_trigger cam u p s h]

theorem on_reconnection_exposure (s : SourceState) :
    (on_reconnection s).1.current_exposure = s.current_exposure := by
  rcases on_reconnection_state s with h | h <;> rw [h]

theorem load_camera_state_clamp (cam : CameraEnv) (s : SourceState)
    (h : online cam s = true) :
    (load_camera_state cam s).1.current_exposure
      ≤ cam.exposure_limits.2 := by
  unfold load_camera_state
  rw [if_neg (by simp [h])]
  dsimp only
  split
  · exact le_refl _
  · exact Int.not_lt.mp (by assumption)

theorem online_of_components (cam : CameraEnv) (s : SourceState)
    (hcam : s.cameraPresent = true) (hc : cam.is_connected = true)
    (hcap : cam.is_capturing = true) : online cam s = true := by
  unfold online
  rw [hcam, hc, hcap]
  rfl

theorem online_components (cam : CameraEnv) (s : SourceState)
    (h : online cam s = true) :
    s.cameraPresent = true ∧ cam.is_connected = true ∧
    cam.is_capturing = true := by
  unfold online at h
  revert h
  cases s.cameraPresent <;> cases cam.is_connected <;>
    cases cam.is_capturing <;> simp

/-- A successful `init_device` on a capturing device leaves the
remembered exposure value at most the device maximum it reported. -/
theorem init_device_clamp (cam : CameraEnv) (s : SourceState)
    (hcam : s.cameraPresent = true) (h1 : cam.initialize_ok = true)
    (h2 : cam.is_connected = true) (hcap : cam.is_capturing = true) :
    (init_device cam s).1.current_exposure ≤ cam.exposure_limits.2 := by
  unfold init_device
  rw [if_neg (by simp [h1]), if_neg (by simp [h2])]
  dsimp only
  set q1 := (match s.selected_usecase with
    | some u => set_usecase cam u s
    | none => (s, ([] : List Effect))) with hq1
  have hcam1 : q1.1.cameraPresent = s.cameraPresent := by
    rcases hu : s.selected_usecase with _ | u
    · rw [hq1, hu]
    · rw [hq1, hu]
      exact (set_usecase_fields cam u s).2.2.2.1
  set q2 := set_exposure_mode cam s.current_exposure_mode q1.1 with hq2
  have hcam2 : q2.1.cameraPresent = q1.1.cameraPresent :=
    (set_exposure_mode_fields cam s.current_exposure_mode q1.1).2.2.2.1
  set q3 : SourceState × List Effect :=
    (if q2.1.current_exposure_mode = false ∧ q2.1.current_exposure ≠ 0 then
      (q2.1, [Effect.camSetExposure q2.1.current_exposure,
              Effect.notifySetExposureDelayed q2.1.current_exposure])
    else (q2.1, [])) with hq3
  have hq3s : q3.1 = q2.1 := by
    rw [hq3]
    split
    · rfl
    · rfl
  have honline : online cam q3.1 = true := by
    apply online_of_components cam q3.1 _ h2 hcap
    rw [hq3s, hcam2, hcam1, hcam]
  have hclamp := load_camera_state_clamp cam q3.1 honline
  show (on_reconnection (load_camera_state cam q3.1).1).1.current_exposure
      ≤ cam.exposure_limits.2
  rw [on_reconnection_exposure]
  exact hclamp

theorem mkSource_offline (cam : CameraEnv) (t : ℚ) (a : InitArgs)
    (h : cam.initialize_ok = false ∨ cam.is_connected = false) :
    get_init_dict (mkSource cam t a).1 = a := by
  unfold mkSource
  rw [init_device_fail cam _ h]
  rfl

theorem attempt_reconnect_fail_iter (cam : CameraEnv)
    (hfail : cam.initialize_ok = false ∨ cam.is_connected = false) :
    ∀ (n : ℕ) (s : SourceState), s.cameraPresent = true →
      ((fun t => (attempt_reconnect cam t).1)^[n] s).reconnection_attempts
          = s.reconnection_attempts + n ∧
      ((fun t => (attempt_reconnect cam t).1)^[n] s).cameraPresent
          = true := by
  intro n
  induction n with
  | zero =>
    intro s hcam
    exact ⟨rfl, hcam⟩
  | succ m ih =>
    intro s hcam
    rw [Function.iterate_succ_apply]
    obtain ⟨hst, _⟩ := attempt_reconnect_fail cam s hcam hfail
    show ((fun t => (attempt_reconnect cam t).1)^[m]
        (attempt_reconnect cam s).1).reconnection_attempts
        = s.reconnection_attempts + (m + 1) ∧ _
    rw [hst]
    obtain ⟨ha, hc⟩ := ih
      { s with reconnection_attempts := s.reconnection_attempts + 1 }
      (by exact hcam)
    constructor
    · rw [ha]
      show s.reconnection_attempts + 1 + m = s.reconnection_attempts + (m + 1)
      omega
    · exact hc

/-- One tick whose poll times out, at host time `u`. -/
def timeoutTick (cam : CameraEnv) (u : ℚ) : TickInput :=
  { cam := cam, unixNow := u, pupilNow := 0, poll := none }

/-- `n` consecutive timeout ticks 10 ms apart, the `i`-th at host
time `(j + i + 1) / 100` seconds. -/
def timeoutTrace (cam : CameraEnv) (j n : ℕ) : List TickInput :=
  (List.range n).map
    (fun i : ℕ => timeoutTick cam (((j : ℚ) + (i : ℚ) + 1) / 100))

theorem timeoutTrace_cons (cam : CameraEnv) (j m : ℕ) :
    timeoutTrace cam j (m + 1)
      = timeoutTick cam (((j : ℚ) + 1) / 100)
        :: timeoutTrace cam (j + 1) m := by
  unfold timeoutTrace
  rw [List.range_succ_eq_map, List.map_cons, List.map_map]
  congr 1
  · show timeoutTick cam (((j : ℚ) + ((0 : ℕ) : ℚ) + 1) / 100)
      = timeoutTick cam (((j : ℚ) + 1) / 100)
    norm_num
  · apply List.map_congr_left
    intro i _
    show timeoutTick cam (((j : ℚ) + ((i + 1 : ℕ) : ℚ) + 1) / 100)
      = timeoutTick cam ((((j + 1 : ℕ) : ℚ) + (i : ℚ) + 1) / 100)
    congr 1
    push_cast
    ring

/-- Running timeout ticks 10 ms apart against a tracker that starts
with `j` misses and reset time 0: the reconnection attempt fires
exactly on the tick that brings the miss count to 46, and afterwards
both tracker fields are reset. -/
theorem timeoutTrace_spec (cam : CameraEnv) :
    ∀ (n j : ℕ) (s : SourceState), j + n = 46 → 1 ≤ n →
      s.missed_frame_count = j → s.last_frame_time = 0 →
      triggerFlags s (timeoutTrace cam j n)
        = List.replicate (n - 1) false ++ [true] ∧
      (runTicks s (timeoutTrace cam j n)).1.missed_frame_count = 0 ∧
      (runTicks s (timeoutTrace cam j n)).1.last_frame_time = 46 / 100 := by
  intro n
  induction n with
  | zero =>
    intro j s hsum hpos _ _
    exact absurd hpos (by omega)
  | succ m ih =>
    intro j s hsum hpos hmc hlft
    rw [timeoutTrace_cons]
    by_cases hm : m = 0
    · -- the 46th consecutive miss: the reconnection attempt fires
      subst hm
      have hj : j = 45 := by omega
      subst hj
      have hcond : s.missed_frame_count + 1 > 45
          ∨ (((45 : ℕ) : ℚ) + 1) / 100 - s.last_frame_time > 5 :=
        Or.inl (by rw [hmc]; omega)
      obtain ⟨m1, m2, m3, _, _⟩ :=
        get_frames_timeout_trigger cam ((((45 : ℕ) : ℚ) + 1) / 100) 0 s hcond
      have htr0 : timeoutTrace cam (45 + 1) 0 = [] := rfl
      rw [htr0]
      refine ⟨?_, ?_, ?_⟩
      · rw [triggerFlags_cons]
        simp only [timeoutTick]
        have hflag : decide (Effect.logReconnectCall
            ∈ (get_frames cam ((((45 : ℕ) : ℚ) + 1) / 100) 0 none
                s).2.1) = true := by
          simp only [m3]
          exact decide_eq_true (attempt_reconnect_logged cam _)
        rw [hflag]
        rfl
      · show (get_frames cam ((((45 : ℕ) : ℚ) + 1) / 100) 0 none
            s).1.missed_frame_count = 0
        exact m1
      · show (get_frames cam ((((45 : ℕ) : ℚ) + 1) / 100) 0 none
            s).1.last_frame_time = 46 / 100
        rw [m2]
        norm_num
    · -- a miss under both thresholds
      obtain ⟨m2, rfl⟩ : ∃ m2, m = m2 + 1 := ⟨m - 1, by omega⟩
      have hj44 : j ≤ 44 := by omega
      have hcond : ¬(s.missed_frame_count + 1 > 45
          ∨ ((j : ℚ) + 1) / 100 - s.last_frame_time > 5) := by
        push_neg
        refine ⟨by rw [hmc]; omega, ?_⟩
        rw [hlft, sub_zero, div_le_iff₀ (by norm_num : (0 : ℚ) < 100)]
        have hcast : (j : ℚ) ≤ 44 := by exact_mod_cast hj44
        linarith
      have heq := get_frames_timeout_no_trigger cam (((j : ℚ) + 1) / 100)
        0 s hcond
      obtain ⟨hflags, hmc2, hlft2⟩ := ih (j + 1)
        { s with missed_frame_count := s.missed_frame_count + 1 }
        (by omega) (by omega)
        (show s.missed_frame_count + 1 = j + 1 by rw [hmc])
        (show s.last_frame_time = 0 from hlft)
      refine ⟨?_, ?_, ?_⟩
      · rw [triggerFlags_cons]
        simp only [timeoutTick]
        have hflag : decide (Effect.logReconnectCall
            ∈ (get_frames cam (((j : ℚ) + 1) / 100) 0 none s).2.1)
            = false := by
          simp only [heq]
          rfl
        rw [hflag]
        have hstate : (get_frames cam (((j : ℚ) + 1) / 100) 0 none s).1
            = { s with missed_frame_count := s.missed_frame_count + 1 } := by
          rw [heq]
        rw [hstate, hflags]
        show false :: (List.replicate (m2 + 1 - 1) false ++ [true])
            = List.replicate (m2 + 1 + 1 - 1) false ++ [true]
        rw [Nat.add_sub_cancel, Nat.add_sub_cancel, List.replicate_succ,
          List.cons_append]
      · rw [runTicks_cons]
        simp only [timeoutTick]
        have hstate : (get_frames cam (((j : ℚ) + 1) / 100) 0 none s).1
            = { s with missed_frame_count := s.missed_frame_count + 1 } := by
          rw [heq]
        rw [hstate]
        exact hmc2
      · rw [runTicks_cons]
        simp only [timeoutTick]
        have hstate : (get_frames cam (((j : ℚ) + 1) / 100) 0 none s).1
            = { s with missed_frame_count := s.missed_frame_count + 1 } := by
          rw [heq]
        rw [hstate]
        exact hlft2

/-- A source whose one-shot timestamp offset is already set
to 900 s. -/
def s900 : SourceState := { baseState with royale_timestamp_offset := some 900 }

/-- A source with the record-pointcloud option enabled and no
recording in progress. -/
def sRecOpt : SourceState := { baseState with record_pointcloud := true }

/-- A source whose menu has been created (it has been online). -/
def sMenu : SourceState := { baseState with menuPresent := true }

/-- A source ready for a recording session: menu created and the
record-pointcloud option enabled. -/
def sSession : SourceState :=
  { baseState with menuPresent := true, record_pointcloud := true }

/-- A source with camera handle never created. -/
def sNoCam : SourceState := { baseState with cameraPresent := false }

/-- A source with a remembered exposure value of 5000 µs, above the
2000 µs maximum that `camOnline` reports. -/
def sHot : SourceState := { baseState with current_exposure := 5000 }

/-- A trace refuting the literal reading of the dual-threshold
trigger condition: a successful poll at host time 0, a timeout at
5.5 s (which triggers an attempt and resets the tracker) and a
timeout at 10.2 s, more than 5 s after the last successful frame. -/
def cexTrace : List TickInput :=
  [{ cam := camOffline, unixNow := 0, pupilNow := 0, poll := some ⟨0, 0⟩ },
   { cam := camOffline, unixNow := 11 / 2, pupilNow := 0, poll := none },
   { cam := camOffline, unixNow := 51 / 5, pupilNow := 0, poll := none }]

/-!  The claims. -/

/-- C1, counterexample: a successful `init_device` on a source whose
timestamp offset is already set (a reconnection into a new Online
epoch) does not invalidate the offset — it stays 900 — and the first
frame of the new epoch is adjusted by the stale 900, not by a freshly
computed offset (the clocks at that moment would give 3000). -/
theorem picoflexx_C1_counterexample :
    (init_device camOnline s900).2.2 = true ∧
    (init_device camOnline s900).1.royale_timestamp_offset = some 900 ∧
    (get_frames camOnline 2000 5000 (some ⟨100, 100⟩)
        (init_device camOnline s900).1).2.2 = some ⟨1000, 1000⟩ ∧
    ((5000 : ℚ) - 2000 ≠ 900) := by
  have hoff : (init_device camOnline s900).1.royale_timestamp_offset
      = some 900 := init_device_offset camOnline s900
  refine ⟨rfl, hoff, ?_, by norm_num⟩
  obtain ⟨_, _, _, _, g5⟩ := get_frames_success camOnline 2000 5000
    ⟨100, 100⟩ (init_device camOnline s900).1
  rw [g5, hoff]
  simp only [Option.getD_some]
  norm_num

/-- C1, amended: the timestamp offset is unset only at construction
and is computed at most once per source lifetime, on the first
successful frame after construction; neither `init_device` (a
transition into Online), nor `attempt_reconnect`, nor any later call
of `get_frames` ever invalidates or recomputes it, so all frames of
every Online epoch are adjusted by the same stored value. -/
theorem picoflexx_C1 (cam : CameraEnv) (s : SourceState) (u p : ℚ)
    (f : FramePair) (v : ℚ) (a : InitArgs) :
    (mkSource cam u a).1.royale_timestamp_offset = none ∧
    (init_device cam s).1.royale_timestamp_offset
      = s.royale_timestamp_offset ∧
    (attempt_reconnect cam s).1.royale_timestamp_offset
      = s.royale_timestamp_offset ∧
    (get_frames cam u p none s).1.royale_timestamp_offset
      = s.royale_timestamp_offset ∧
    (s.royale_timestamp_offset = some v →
      (get_frames cam u p (some f) s).1.royale_timestamp_offset = some v ∧
      (get_frames cam u p (some f) s).2.2
        = some ⟨f.irTimestamp + v, f.depthTimestamp + v⟩) ∧
    (s.royale_timestamp_offset = none →
      (get_frames cam u p (some f) s).1.royale_timestamp_offset
        = some (p - u)) := by
  obtain ⟨_, _, _, g4, g5⟩ := get_frames_success cam u p f s
  refine ⟨?_, init_device_offset cam s, attempt_reconnect_offset cam s,
    get_frames_timeout_offset cam u p s, ?_, ?_⟩
  · show (init_device cam _).1.royale_timestamp_offset = none
    rw [init_device_offset]
  · intro hv
    constructor
    · rw [g4, hv, Option.getD_some]
    · rw [g5, hv, Option.getD_some]
  · intro hn
    rw [g4, hn]
    rfl

/-- C1, witness for the amended theorem: with the offset frozen at
900, a frame with device timestamp 100 is returned with timestamp
100 + 900, and on a fresh source the offset is anchored at
`pupilNow - unixNow`. -/
theorem picoflexx_C1_witness :
    (get_frames camOnline 980 1000 (some ⟨100, 100⟩)
        s900).1.royale_timestamp_offset = some 900 ∧
    (get_frames camOnline 980 1000 (some ⟨100, 100⟩) s900).2.2
      = some ⟨100 + 900, 100 + 900⟩ ∧
    (get_frames camOnline 980 1000 (some ⟨100, 100⟩)
        baseState).1.royale_timestamp_offset = some (1000 - 980) :=
  ⟨((picoflexx_C1 camOnline s900 980 1000 ⟨100, 100⟩ 900
      ⟨false, false, 2000, none⟩).2.2.2.2.1 rfl).1,
   ((picoflexx_C1 camOnline s900 980 1000 ⟨100, 100⟩ 900
      ⟨false, false, 2000, none⟩).2.2.2.2.1 rfl).2,
   (picoflexx_C1 camOnline baseState 980 1000 ⟨100, 100⟩ 0
      ⟨false, false, 2000, none⟩).2.2.2.2.2 rfl⟩

/-- C2, counterexample: with device frame timestamp 100, host
(pupil) clock 1000 and unix clock 980 at the first success, the
claim demands offset `1000 - 100 = 900` and adjusted timestamp 1000;
the code computes `g_pool.get_timestamp() - time() = 1000 - 980 = 20`
and returns timestamp 120. -/
theorem picoflexx_C2_counterexample :
    (get_frames camOnline 980 1000 (some ⟨100, 100⟩)
        baseState).1.royale_timestamp_offset = some 20 ∧
    (get_frames camOnline 980 1000 (some ⟨100, 100⟩)
        baseState).1.royale_timestamp_offset ≠ some (1000 - 100) ∧
    (get_frames camOnline 980 1000 (some ⟨100, 100⟩) baseState).2.2
      = some ⟨120, 120⟩ ∧
    (get_frames camOnline 980 1000 (some ⟨100, 100⟩) baseState).2.2
      ≠ some ⟨1000, 1000⟩ := by
  have h1 : (get_frames camOnline 980 1000 (some ⟨100, 100⟩)
      baseState).1.royale_timestamp_offset = some 20 := by
    norm_num [get_frames, baseState]
  have h2 : (get_frames camOnline 980 1000 (some ⟨100, 100⟩)
      baseState).2.2 = some ⟨120, 120⟩ := by
    norm_num [get_frames, baseState]
  refine ⟨h1, ?_, h2, ?_⟩
  · rw [h1]
    intro hcontra
    have := Option.some.inj hcontra
    norm_num at this
  · rw [h2]
    intro hcontra
    have := FramePair.mk.inj (Option.some.inj hcontra)
    norm_num at this

/-- C2, amended: when no offset is stored, a successful poll
computes it as `pupilNow - unixNow` — the host timestamp minus the
current unix-clock reading, not minus the device frame timestamp —
and adds it to both frame timestamps; the claim scenario holds in
the special case that the unix clock reading at the first success
equals the device frame timestamp (100.0 with host 1000.0 gives
offset 900.0, and the later frame with device timestamp 101.0 is
returned as exactly 1001.0). -/
theorem picoflexx_C2 (cam : CameraEnv) (u p : ℚ) (f : FramePair)
    (s : SourceState) :
    (s.royale_timestamp_offset = none →
      (get_frames cam u p (some f) s).1.royale_timestamp_offset
        = some (p - u) ∧
      (get_frames cam u p (some f) s).2.2
        = some ⟨f.irTimestamp + (p - u), f.depthTimestamp + (p - u)⟩) ∧
    ((get_frames camOnline 100 1000 (some ⟨100, 100⟩)
        baseState).1.royale_timestamp_offset = some 900 ∧
     (get_frames camOnline 101 1005 (some ⟨101, 101⟩)
        (get_frames camOnline 100 1000 (some ⟨100, 100⟩)
          baseState).1).2.2 = some ⟨1001, 1001⟩) := by
  obtain ⟨_, _, _, g4, g5⟩ := get_frames_success cam u p f s
  refine ⟨?_, ?_, ?_⟩
  · intro hn
    constructor
    · rw [g4, hn]
      rfl
    · rw [g5, hn]
      rfl
  · norm_num [get_frames, baseState]
  · have hoff : (get_frames camOnline 100 1000 (some ⟨100, 100⟩)
        baseState).1.royale_timestamp_offset = some 900 := by
      norm_num [get_frames, baseState]
    obtain ⟨_, _, _, _, k5⟩ := get_frames_success camOnline 101 1005
      ⟨101, 101⟩ (get_frames camOnline 100 1000 (some ⟨100, 100⟩)
        baseState).1
    rw [k5, hoff]
    simp only [Option.getD_some]
    norm_num

/-- C2, witness for the amended theorem, at unix clock 980, host
clock 1000 and a frame with device timestamp 100. -/
theorem picoflexx_C2_witness :
    (get_frames camOnline 980 1000 (some ⟨100, 100⟩)
        baseState).1.royale_timestamp_offset = some (1000 - 980) ∧
    (get_frames camOnline 980 1000 (some ⟨100, 100⟩) baseState).2.2
      = some ⟨100 + (1000 - 980), 100 + (1000 - 980)⟩ :=
  (picoflexx_C2 camOnline 980 1000 ⟨100, 100⟩ baseState).1 rfl

/-- C3, counterexample: in `cexTrace` the only successful poll is at
host time 0, and the third tick times out at 10.2 s — more than 5 s
after the last successful frame, with every intervening poll missed —
yet no reconnection attempt is made on it (its trigger flag is
`false`): the 5-second clock was reset by the attempt the second
tick triggered, not only by successful polls. -/
theorem picoflexx_C3_counterexample :
    triggerFlags baseState cexTrace = [false, true, false] ∧
    cexTrace.map (fun t => t.poll) = [some ⟨0, 0⟩, none, none] ∧
    cexTrace.map (fun t => t.unixNow) = [0, 11 / 2, 51 / 5] ∧
    ((51 : ℚ) / 5 - 0 > 5) := by
  obtain ⟨e1, e2, e3, _, _⟩ := get_frames_success camOffline 0 0
    ⟨0, 0⟩ baseState
  set S1 := (get_frames camOffline 0 0 (some ⟨0, 0⟩) baseState).1 with hS1
  have hc2 : S1.missed_frame_count + 1 > 45
      ∨ (11 : ℚ) / 2 - S1.last_frame_time > 5 := by
    right
    rw [e2]
    norm_num
  obtain ⟨m1, m2, m3, _, _⟩ :=
    get_frames_timeout_trigger camOffline (11 / 2) 0 S1 hc2
  set S2 := (get_frames camOffline (11 / 2) 0 none S1).1 with hS2
  have hc3 : ¬(S2.missed_frame_count + 1 > 45
      ∨ (51 : ℚ) / 5 - S2.last_frame_time > 5) := by
    push_neg
    constructor
    · rw [m1]
      omega
    · rw [m2]
      norm_num
  have heq3 := get_frames_timeout_no_trigger camOffline (51 / 5) 0 S2 hc3
  have hf1 : decide (Effect.logReconnectCall
      ∈ (get_frames camOffline 0 0 (some ⟨0, 0⟩) baseState).2.1)
      = false := by
    simp only [e3]
    rfl
  have hf2 : decide (Effect.logReconnectCall
      ∈ (get_frames camOffline (11 / 2) 0 none S1).2.1) = true := by
    simp only [m3]
    exact decide_eq_true (attempt_reconnect_logged camOffline _)
  have hf3 : decide (Effect.logReconnectCall
      ∈ (get_frames camOffline (51 / 5) 0 none S2).2.1) = false := by
    simp only [heq3]
    rfl
  refine ⟨?_, rfl, rfl, by norm_num⟩
  show decide (Effect.logReconnectCall
      ∈ (get_frames camOffline 0 0 (some ⟨0, 0⟩) baseState).2.1)
    :: decide (Effect.logReconnectCall
      ∈ (get_frames camOffline (11 / 2) 0 none S1).2.1)
    :: decide (Effect.logReconnectCall
      ∈ (get_frames camOffline (51 / 5) 0 none S2).2.1) :: []
    = [false, true, false]
  rw [hf1, hf2, hf3]

/-- C3, amended: for every sequence of poll outcomes, a tick of
`get_frames` attempts a reconnection if and only if it is a timeout
on which either the incremented missed-frame count exceeds 45 or
more than 5 seconds of host time have passed since the tracker's
stored reset time — where both tracker fields are reset not only by
a successful poll but also by every triggered reconnection attempt
(`trackerStep` over the observable history reconstructs them
exactly). -/
theorem picoflexx_C3 (ts : List TickInput) (s : SourceState) :
    triggersConsistent s.missed_frame_count s.last_frame_time
      (ts.zip (triggerFlags s ts)) ∧
    ((runTicks s ts).1.missed_frame_count,
      (runTicks s ts).1.last_frame_time)
      = (ts.zip (triggerFlags s ts)).foldl trackerStep
          (s.missed_frame_count, s.last_frame_time) :=
  tracker_characterisation ts s

/-- C4: a recording session with the pointcloud option enabled that
experiences exactly `k` drop-and-restore cycles opens exactly `k + 1`
segment files, named `pointcloud.rrf`, `pointcloud_1.rrf`, …,
`pointcloud_k.rrf` in that order inside the recording directory,
with no gaps or repeated names, and the per-recording reconnection
count is reset to 0 when the recording starts. -/
theorem picoflexx_C4 (dir : String) (k : ℕ) (s : SourceState)
    (hmenu : s.menuPresent = true) (hcam : s.cameraPresent = true)
    (hrp : s.record_pointcloud = true) :
    segmentsOpened (sessionRun dir k s)
      = ((dir ++ "/") ++ "pointcloud.rrf")
        :: (List.range k).map (fun i => (dir ++ "/")
             ++ (("pointcloud_" ++ Nat.repr (i + 1)) ++ ".rrf")) ∧
    (segmentsOpened (sessionRun dir k s)).length = k + 1 ∧
    (segmentsOpened (sessionRun dir k s)).Nodup ∧
    (on_notify (Notification.recordingStarted dir)
        s).1.recording_reconnection_count = 0 := by
  have h := sessionRun_segments dir k s hmenu hcam hrp
  refine ⟨h, ?_, ?_, ?_⟩
  · rw [h]
    simp
  · rw [h]
    exact sessionNames_nodup dir k
  · unfold on_notify
    rw [if_neg (by simp [hmenu])]
    dsimp only
    rw [start_pointcloud_recording_state]

/-- C4, witness: a session in directory `rec` with two
drop-and-restore cycles. -/
theorem picoflexx_C4_witness :
    segmentsOpened (sessionRun "rec" 2 sSession)
      = (("rec" ++ "/") ++ "pointcloud.rrf")
        :: (List.range 2).map (fun i => ("rec" ++ "/")
             ++ (("pointcloud_" ++ Nat.repr (i + 1)) ++ ".rrf")) ∧
    (segmentsOpened (sessionRun "rec" 2 sSession)).length = 2 + 1 ∧
    (segmentsOpened (sessionRun "rec" 2 sSession)).Nodup ∧
    (on_notify (Notification.recordingStarted "rec")
        sSession).1.recording_reconnection_count = 0 :=
  picoflexx_C4 "rec" 2 sSession rfl rfl rfl

/-- C5: whenever a timeout trips either threshold, `get_frames`
resets both tracker fields (missed count to 0, last-success time to
now) no matter what the camera environment — hence the reconnection
outcome — is; and for 46 consecutive timeouts spaced 10 ms apart
from host time 0, exactly one reconnection attempt happens,
immediately on the 46th timeout, with the counters reset
afterwards. -/
theorem picoflexx_C5 (cam : CameraEnv) (u p : ℚ) (s : SourceState) :
    triggerFlags baseState (timeoutTrace cam 0 46)
      = List.replicate 45 false ++ [true] ∧
    (runTicks baseState (timeoutTrace cam 0 46)).1.missed_frame_count
      = 0 ∧
    (runTicks baseState (timeoutTrace cam 0 46)).1.last_frame_time
      = 46 / 100 ∧
    (s.missed_frame_count + 1 > 45 ∨ u - s.last_frame_time > 5 →
      (get_frames cam u p none s).1.missed_frame_count = 0 ∧
      (get_frames cam u p none s).1.last_frame_time = u) := by
  obtain ⟨h1, h2, h3⟩ := timeoutTrace_spec cam 46 0 baseState rfl
    (by omega) rfl rfl
  refine ⟨h1, h2, h3, ?_⟩
  intro hcond
  obtain ⟨m1, m2, _, _, _⟩ := get_frames_timeout_trigger cam u p s hcond
  exact ⟨m1, m2⟩

/-- C5, witness: the 46-timeout scenario against an unreachable
camera, plus a triggering timeout at host time 6 on a fresh
tracker. -/
theorem picoflexx_C5_witness :
    triggerFlags baseState (timeoutTrace camOffline 0 46)
      = List.replicate 45 false ++ [true] ∧
    (get_frames camOffline 6 0 none baseState).1.missed_frame_count
      = 0 ∧
    (get_frames camOffline 6 0 none baseState).1.last_frame_time = 6 :=
  ⟨(picoflexx_C5 camOffline 6 0 baseState).1,
   ((picoflexx_C5 camOffline 6 0 baseState).2.2.2
      (Or.inr (by norm_num [baseState]))).1,
   ((picoflexx_C5 camOffline 6 0 baseState).2.2.2
      (Or.inr (by norm_num [baseState]))).2⟩

/-- C6: `attempt_reconnect` is a warning-only no-op when the device
handle was never created; otherwise it emits `picoflexx.disconnected`
exactly when the pre-call attempt counter is zero (the first failed
cycle since the last success, the test preceding the increment),
always re-initialises the device, resets the counter to zero when
`init_device` succeeds and increments it otherwise, and under
repeated failures the counter grows without bound — `n` failing
calls add exactly `n`. -/
theorem picoflexx_C6 (cam : CameraEnv) (s : SourceState) (n : ℕ) :
    (s.cameraPresent = false →
      attempt_reconnect cam s
        = (s, [Effect.logReconnectCall, Effect.warnCameraNone])) ∧
    (s.cameraPresent = true →
      Effect.camInit ∈ (attempt_reconnect cam s).2 ∧
      (Effect.notifyAll "picoflexx.disconnected"
          ∈ (attempt_reconnect cam s).2
        ↔ s.reconnection_attempts = 0) ∧
      (attempt_reconnect cam s).1.reconnection_attempts
        = (if cam.initialize_ok = true ∧ cam.is_connected = true then 0
           else s.reconnection_attempts + 1)) ∧
    (s.cameraPresent = true →
      cam.initialize_ok = false ∨ cam.is_connected = false →
      ((fun t => (attempt_reconnect cam t).1)^[n]
          s).reconnection_attempts = s.reconnection_attempts + n) :=
  ⟨fun hcam => attempt_reconnect_nocam cam s hcam,
   fun hcam => attempt_reconnect_events cam s hcam,
   fun hcam hfail => (attempt_reconnect_fail_iter cam hfail n s hcam).1⟩

/-- C6, witness: a never-created handle is left untouched; with the
handle present and an unreachable device, the first call emits
`disconnected`, and three failing calls leave the counter at 3. -/
theorem picoflexx_C6_witness :
    attempt_reconnect camOffline sNoCam
      = (sNoCam, [Effect.logReconnectCall, Effect.warnCameraNone]) ∧
    Effect.camInit ∈ (attempt_reconnect camOffline baseState).2 ∧
    (Effect.notifyAll "picoflexx.disconnected"
        ∈ (attempt_reconnect camOffline baseState).2
      ↔ baseState.reconnection_attempts = 0) ∧
    ((fun t => (attempt_reconnect camOffline t).1)^[3]
        baseState).reconnection_attempts
      = baseState.reconnection_attempts + 3 :=
  ⟨(picoflexx_C6 camOffline sNoCam 3).1 rfl,
   ((picoflexx_C6 camOffline baseState 3).2.1 rfl).1,
   ((picoflexx_C6 camOffline baseState 3).2.1 rfl).2.1,
   (picoflexx_C6 camOffline baseState 3).2.2 rfl (Or.inl rfl)⟩

/-- C7: while online, `load_camera_state` (run after every successful
`init_device` and after every usecase change) clamps the remembered
exposure value to the maximum the device reports, so the stored
`current_exposure` never exceeds that maximum. -/
theorem picoflexx_C7 (cam : CameraEnv) (s : SourceState) (u : String)
    (h : online cam s = true) :
    (load_camera_state cam s).1.current_exposure
      ≤ cam.exposure_limits.2 ∧
    (set_usecase cam u s).1.current_exposure ≤ cam.exposure_limits.2 ∧
    ((init_device cam s).2.2 = true →
      (init_device cam s).1.current_exposure
        ≤ cam.exposure_limits.2) := by
  obtain ⟨hcam, hconn, hcap⟩ := online_components cam s h
  refine ⟨load_camera_state_clamp cam s h,
    load_camera_state_clamp cam s h, ?_⟩
  intro hok
  have h1 : cam.initialize_ok = true := by
    by_contra hne
    have hfalse : cam.initialize_ok = false := by
      revert hne
      cases cam.initialize_ok <;> simp
    rw [init_device_fail cam s (Or.inl hfalse)] at hok
    simp at hok
  have h2 : cam.is_connected = true := by
    by_contra hne
    have hfalse : cam.is_connected = false := by
      revert hne
      cases cam.is_connected <;> simp
    rw [init_device_fail cam s (Or.inr hfalse)] at hok
    simp at hok
  exact init_device_clamp cam s hcam h1 h2 hcap

/-- C7, witness: a remembered exposure of 5000 µs against a device
maximum of 2000 µs. -/
theorem picoflexx_C7_witness :
    (load_camera_state camOnline sHot).1.current_exposure
      ≤ camOnline.exposure_limits.2 ∧
    (set_usecase camOnline "MODE_5_45FPS_500" sHot).1.current_exposure
      ≤ camOnline.exposure_limits.2 ∧
    ((init_device camOnline sHot).2.2 = true →
      (init_device camOnline sHot).1.current_exposure
        ≤ camOnline.exposure_limits.2) :=
  picoflexx_C7 camOnline sHot "MODE_5_45FPS_500" rfl

/-- C8, counterexample: with the record-pointcloud option enabled
and no recording active (no recording directory), the stop-recording
operation still issues the `stop_recording` hardware call — the
guard tests only the option flag, not session activity. -/
theorem picoflexx_C8_counterexample :
    sRecOpt.recording_directory = none ∧
    sRecOpt.record_pointcloud = true ∧
    stop_pointcloud_recording sRecOpt
      = (sRecOpt, [Effect.camStopRecording]) :=
  ⟨rfl, rfl, rfl⟩

/-- C8, amended: the stop-recording operation is a no-op — no
hardware call, no state change — exactly when the record-pointcloud
option is disabled; when the option is enabled it always issues the
hardware stop call (and changes no state), regardless of whether a
recording is active. -/
theorem picoflexx_C8 (s : SourceState) :
    (s.record_pointcloud = false →
      stop_pointcloud_recording s = (s, [])) ∧
    (s.record_pointcloud = true →
      stop_pointcloud_recording s = (s, [Effect.camStopRecording])) := by
  constructor
  · intro h
    unfold stop_pointcloud_recording
    rw [if_pos h]
  · intro h
    unfold stop_pointcloud_recording
    rw [if_neg (by simp [h])]

/-- C8, witness: both guard outcomes at concrete states. -/
theorem picoflexx_C8_witness :
    stop_pointcloud_recording baseState = (baseState, []) ∧
    stop_pointcloud_recording sRecOpt
      = (sRecOpt, [Effect.camStopRecording]) :=
  ⟨(picoflexx_C8 baseState).1 rfl, (picoflexx_C8 sRecOpt).2 rfl⟩

/-- C9: on every `recording.started` notification that reaches the
handler (the menu exists), the very first effect is opening
`<rec_path>/info_picoflexx.csv` in append mode and writing the key
`"Royale Timestamp Offset"` mapped to the timestamp offset stored at
session start. -/
theorem picoflexx_C9 (s : SourceState) (p : String)
    (hmenu : s.menuPresent = true) :
    (on_notify (Notification.recordingStarted p) s).2.head?
      = some (Effect.metadataAppend ((p ++ "/") ++ "info_picoflexx.csv")
          "Royale Timestamp Offset" s.royale_timestamp_offset) := by
  unfold on_notify
  rw [if_neg (by simp [hmenu])]
  rfl

/-- C9, witness: a source with the menu created, recording to
directory `rec`. -/
theorem picoflexx_C9_witness :
    (on_notify (Notification.recordingStarted "rec") sMenu).2.head?
      = some (Effect.metadataAppend (("rec" ++ "/")
          ++ "info_picoflexx.csv") "Royale Timestamp Offset"
          sMenu.royale_timestamp_offset) :=
  picoflexx_C9 sMenu "rec" rfl

/-- C10: when the device is offline at construction, the settings
survive the `get_init_dict` round trip — a second source built from
the first source's `get_init_dict` has the same `record_pointcloud`,
auto-exposure mode, `current_exposure` and `selected_usecase`, and
both equal the original constructor arguments. -/
theorem picoflexx_C10 (cam1 cam2 : CameraEnv) (t1 t2 : ℚ)
    (a : InitArgs)
    (h1 : cam1.initialize_ok = false ∨ cam1.is_connected = false)
    (h2 : cam2.initialize_ok = false ∨ cam2.is_connected = false) :
    get_init_dict (mkSource cam2 t2
        (get_init_dict (mkSource cam1 t1 a).1)).1
      = get_init_dict (mkSource cam1 t1 a).1 ∧
    get_init_dict (mkSource cam1 t1 a).1 = a :=
  ⟨mkSource_offline cam2 t2 (get_init_dict (mkSource cam1 t1 a).1) h2,
   mkSource_offline cam1 t1 a h1⟩

/-- C10, witness: the round trip at a concrete settings record. -/
theorem picoflexx_C10_witness :
    get_init_dict (mkSource camOffline 7 (get_init_dict
        (mkSource camOffline 3 ⟨true, true, 123, some "MODE_9_5FPS_2000"⟩).1)).1
      = get_init_dict
          (mkSource camOffline 3 ⟨true, true, 123, some "MODE_9_5FPS_2000"⟩).1 ∧
    get_init_dict
        (mkSource camOffline 3 ⟨true, true, 123, some "MODE_9_5FPS_2000"⟩).1
      = ⟨true, true, 123, some "MODE_9_5FPS_2000"⟩ :=
  picoflexx_C10 camOffline camOffline 3 7
    ⟨true, true, 123, some "MODE_9_5FPS_2000"⟩ (Or.inl rfl) (Or.inl rfl)

end Picoflexx
